import Mathlib

/-!
Verification development for the go-slippi library (Slippi replay reader and
frame-assembling parser). The Go source is shallowly embedded: Go maps become
association lists, pointers become `Option`, machine integers become `Int`/`Nat`
(frame numbers are int32; no scenario approaches the 32-bit boundary, noted at
each arithmetic site), IEEE-754 float32 fields are kept as their raw big-endian
bit patterns in `Nat` (the library never computes with them), channel sends by
`Trigger` become an emission trace, and a Go `error` return value becomes an
`Option PErr` carried alongside the new state while a runtime panic (nil
dereference, failed type assertion) becomes the `panic` constructor of the
result type, recording the state and emissions at the moment of the panic.
-/

/-- Association-list lookup, mirroring a Go map read `v, ok := m[k]`. -/
def lookupA {α β : Type} [DecidableEq α] : List (α × β) → α → Option β
| [], _ => none
| (a, b) :: rest, k => if a = k then some b else lookupA rest k

/-- Association-list insert, mirroring a Go map write `m[k] = v`. -/
def insertA {α β : Type} [DecidableEq α] : List (α × β) → α → β → List (α × β)
| [], k, v => [(k, v)]
| (a, b) :: rest, k, v => if a = k then (k, v) :: rest else (a, b) :: insertA rest k v

/-- `semver.Version` restricted to the release triple (the library only ever
parses plain `X.Y.Z` versions). -/
structure Version where
  major : Nat
  minor : Nat
  patch : Nat
deriving DecidableEq, Repr, Inhabited

/-- `semver` comparison `a.LTE(b)`: lexicographic on major, minor, patch. -/
def Version.lte (a b : Version) : Bool :=
  (a.major < b.major) ||
    (a.major = b.major &&
      ((a.minor < b.minor) || (a.minor = b.minor && a.patch ≤ b.patch)))

/-- `semver` comparison `a.GTE(b)`. -/
def Version.gte (a b : Version) : Bool := Version.lte b a

/-- `PlayerType` enumerates the different player types in Melee; it is a Go
`uint8`-backed type (a decoded byte is cast directly, so values outside the
four named constants can occur). -/
abbrev PlayerType := Nat

/-- `PlayerType` constant `Human`. -/
def PlayerType.Human : PlayerType := 0

/-- `PlayerType` constant `CPU`. -/
def PlayerType.CPU : PlayerType := 1

/-- `PlayerType` constant `Demo`. -/
def PlayerType.Demo : PlayerType := 2

/-- `PlayerType` constant `Empty`. -/
def PlayerType.Empty : PlayerType := 3

/-- `PlayerInfo` from the source; enum-typed bytes (`TeamShade`, `TeamID`,
`DashbackFix`, `ShieldDropFix`) are carried as the underlying numbers, and the
three float ratio fields hold raw IEEE-754 bits. -/
structure PlayerInfo where
  Index : Nat
  Port : Nat
  CharacterID : Nat
  PlayerType : PlayerType
  StockStartCount : Nat
  CostumeIndex : Nat
  TeamShade : Nat
  Handicap : Nat
  TeamID : Nat
  PlayerBitfield : Nat
  CPULevel : Nat
  OffenseRatio : Nat
  DefenseRatio : Nat
  ModelScale : Nat
  DashbackFix : Nat
  ShieldDropFix : Nat
  Nametag : String
  DisplayName : String
  ConnectCode : String
  SlippiUID : String
deriving DecidableEq, Repr, Inhabited

/-- `GameInfoBlock` from the source (`DamageRatio` holds raw float bits). -/
structure GameInfoBlock where
  GameBitfield1 : Nat
  GameBitfield2 : Nat
  GameBitfield3 : Nat
  GameBitfield4 : Nat
  BombRain : Nat
  IsTeams : Bool
  ItemSpawnBehavior : Int
  SelfDestructScoreValue : Int
  Stage : Nat
  GameTimer : Nat
  ItemSpawnBitfield1 : Nat
  ItemSpawnBitfield2 : Nat
  ItemSpawnBitfield3 : Nat
  ItemSpawnBitfield4 : Nat
  ItemSpawnBitfield5 : Nat
  DamageRatio : Nat
deriving DecidableEq, Repr, Inhabited

/-- `GameStartPayload`; the Go `[4]PlayerInfo` array is a 4-element list. -/
structure GameStartPayload where
  Version : Version
  GameInfoBlock : GameInfoBlock
  Players : List PlayerInfo
  RandomSeed : Nat
  PAL : Bool
  FrozenPS : Bool
  MajorScene : Nat
  MinorScene : Nat
  LanguageOption : Nat
deriving DecidableEq, Repr, Inhabited

/-- `FrameUpdate`: fields shared by pre- and post-frame updates (position,
facing and percent hold raw float bits). -/
structure FrameUpdate where
  FrameNumber : Int
  PlayerIndex : Nat
  IsFollower : Bool
  ActionStateID : Nat
  XPosition : Nat
  YPosition : Nat
  FacingDirection : Nat
  Percent : Nat
deriving DecidableEq, Repr, Inhabited

/-- `PreFrameUpdatePayload` (float fields hold raw bits). -/
structure PreFrameUpdatePayload where
  FrameUpdate : FrameUpdate
  RandomSeed : Nat
  JoystickX : Nat
  JoystickY : Nat
  CStickX : Nat
  CStickY : Nat
  Trigger : Nat
  ProcessedButtons : Nat
  PhysicalButtons : Nat
  PhysicalLTrigger : Nat
  PhysicalRTrigger : Nat
  XAnalogUCF : Nat
deriving DecidableEq, Repr, Inhabited

/-- `PostFrameUpdatePayload` (float fields hold raw bits; enum bytes as Nat). -/
structure PostFrameUpdatePayload where
  FrameUpdate : FrameUpdate
  InternalCharacterID : Nat
  ShieldSize : Nat
  LastHittingAttackID : Nat
  CurrentComboCount : Nat
  LastHitBy : Nat
  StocksRemaining : Nat
  ActionStateFrameCounter : Nat
  StateBitFlags1 : Nat
  StateBitFlags2 : Nat
  StateBitFlags3 : Nat
  StateBitFlags4 : Nat
  StateBitFlags5 : Nat
  MiscAS : Nat
  Airborne : Bool
  LastGroundID : Nat
  JumpsRemaining : Nat
  LCancelStatus : Nat
  HurtboxCollisionState : Nat
  SelfInducedAirXSpeed : Nat
  SelfInducedYSpeed : Nat
  AttackBasedXSpeed : Nat
  AttackBasedYSpeed : Nat
  SelfInducedGroundXSpeed : Nat
  HitlagFramesRemaining : Nat
  AnimationIndex : Nat
deriving DecidableEq, Repr, Inhabited

/-- `GameEndPayload` (`GameEndMethod` byte as Nat, `LRASInitiator` int8). -/
structure GameEndPayload where
  GameEndMethod : Nat
  LRASInitiator : Int
deriving DecidableEq, Repr, Inhabited

/-- `FrameStartPayload`. -/
structure FrameStartPayload where
  FrameNumber : Int
  RandomSeed : Nat
  SceneFrameCounter : Nat
deriving DecidableEq, Repr, Inhabited

/-- `ItemUpdatePayload` (float fields hold raw bits). -/
structure ItemUpdatePayload where
  FrameNumber : Int
  TypeID : Nat
  State : Nat
  FacingDirection : Nat
  XVelocity : Nat
  YVelocity : Nat
  XPosition : Nat
  YPosition : Nat
  DamageTaken : Nat
  ExpirationTimer : Nat
  SpawnID : Nat
  SamusMissileType : Nat
  PeachTurnipFace : Nat
  IsLaunched : Nat
  ChargedPower : Nat
  Owner : Int
deriving DecidableEq, Repr, Inhabited

/-- `FrameBookendPayload`. -/
structure FrameBookendPayload where
  FrameNumber : Int
  LatestFinalizedFrame : Int
deriving DecidableEq, Repr, Inhabited

/-- `GeckoListPayload`. -/
structure GeckoListPayload where
  GeckoCodes : List Nat
deriving DecidableEq, Repr, Inhabited

/-- `MessageSplitterPayload` (`Data` is the 512-byte block as a list). -/
structure MessageSplitterPayload where
  Data : List Nat
  DataLength : Nat
  InternalCommand : Nat
  LastMessage : Bool
deriving DecidableEq, Repr, Inhabited

/-- `EventPayloadsPayload`; the size map is an association list. -/
structure EventPayloadsPayload where
  PayloadSize : Nat
  PayloadSizes : List (Nat × Nat)
deriving DecidableEq, Repr, Inhabited

/-- `SlpEvent`: the Go struct pairs a `Command` byte with an `interface{}`
payload; the dynamic typing is embedded as one constructor per command. -/
inductive SlpEvent where
| messageSplitter (p : MessageSplitterPayload)
| eventPayloads (p : EventPayloadsPayload)
| gameStart (p : GameStartPayload)
| preFrameUpdate (p : PreFrameUpdatePayload)
| postFrameUpdate (p : PostFrameUpdatePayload)
| gameEnd (p : GameEndPayload)
| frameStart (p : FrameStartPayload)
| itemUpdate (p : ItemUpdatePayload)
| frameBookend (p : FrameBookendPayload)
| geckoList (p : GeckoListPayload)
deriving DecidableEq, Repr, Inhabited

/-- `FrameUpdateType` ("pre" / "post" in the source). -/
inductive FrameUpdateType where
| Pre
| Post
deriving DecidableEq, Repr, Inhabited

/-- The `FrameUpdatePayload` interface: either a pre- or a post-frame update. -/
inductive FrameUpdatePayload where
| pre (p : PreFrameUpdatePayload)
| post (p : PostFrameUpdatePayload)
deriving DecidableEq, Repr

/-- `GetFrameUpdate` of the `FrameUpdatePayload` interface. -/
def FrameUpdatePayload.GetFrameUpdate : FrameUpdatePayload → FrameUpdate
| .pre p => p.FrameUpdate
| .post p => p.FrameUpdate

/-- `FrameUpdates` holds pre- and post-frame updates (nil pointers = `none`). -/
structure FrameUpdates where
  Pre : Option PreFrameUpdatePayload
  Post : Option PostFrameUpdatePayload
deriving DecidableEq, Repr, Inhabited

/-- A `FrameEntry` contains all relevant updates from a given frame; the two
player maps (keyed by player index) are association lists. -/
structure FrameEntry where
  Players : List (Nat × FrameUpdates)
  Followers : List (Nat × FrameUpdates)
  Items : List ItemUpdatePayload
  IsTransferComplete : Bool
deriving DecidableEq, Repr, Inhabited

/-- The fresh `FrameEntry` built by `getFrame`; identical, as a value, to the
Go zero value read from a map miss (nil maps and empty made maps coincide in
this embedding). -/
def emptyFrameEntry : FrameEntry :=
  { Players := [], Followers := [], Items := [], IsTransferComplete := false }

/-- `GameInfo` from the source. -/
structure GameInfo where
  Version : Version
  Teams : Bool
  PAL : Bool
  Stage : Nat
  Players : List PlayerInfo
  MajorScene : Nat
  MinorScene : Nat
deriving DecidableEq, Repr, Inhabited

/-- `Rollbacks` tracks the rollbacks within a replay. `playerIndex` is the Go
int8 (-1 sentinel). -/
structure Rollbacks where
  Frames : List (Int × List FrameEntry)
  Count : Nat
  Lengths : List Nat
  playerIndex : Int
  lastFrameWasRollback : Bool
  currentRollbackLength : Nat
deriving DecidableEq, Repr, Inhabited

/-- Go conversion `int8(x)` applied to a uint8 value. -/
def toInt8ofByte (n : Nat) : Int :=
  if n % 256 < 128 then ((n % 256 : Nat) : Int) else ((n % 256 : Nat) : Int) - 256

/-- `Rollbacks.checkIfRollbackFrame` from the source. The Go `frame *FrameEntry`
argument becomes an `Option`; the mutated receiver is returned with the Bool. -/
def Rollbacks.checkIfRollbackFrame (r : Rollbacks) (frameIndex : Int)
    (frame : Option FrameEntry) (playerIndex : Nat) : Rollbacks × Bool :=
  let latched : Option Rollbacks :=
    if r.playerIndex = -1 then some { r with playerIndex := toInt8ofByte playerIndex }
    else if r.playerIndex ≠ toInt8ofByte playerIndex then none
    else some r
  match latched with
  | none => (r, false)
  | some r1 =>
    match frame with
    | some f =>
      let prior := (lookupA r1.Frames frameIndex).getD []
      let r2 := { r1 with
        Frames := insertA r1.Frames frameIndex (prior ++ [f]),
        Count := r1.Count + 1,
        currentRollbackLength := r1.currentRollbackLength + 1,
        lastFrameWasRollback := true }
      (r2, r2.lastFrameWasRollback)
    | none =>
      let r2 :=
        if r1.lastFrameWasRollback then
          { r1 with
            Lengths := r1.Lengths ++ [r1.currentRollbackLength],
            currentRollbackLength := 0,
            lastFrameWasRollback := false }
        else r1
      (r2, r2.lastFrameWasRollback)

/-- `SlpParserOpts`. -/
structure SlpParserOpts where
  Strict : Bool
deriving DecidableEq, Repr, Inhabited

/-- The mutable state of a `SlpParser`. Handler channels are dropped; `Trigger`
calls are instead recorded in an emission trace (the event-bus fan-out carries
no information back into the parser). -/
structure ParserState where
  Options : SlpParserOpts
  Frames : List (Int × FrameEntry)
  Rollbacks : Rollbacks
  gameInfo : Option GameInfo
  GameEnd : Option GameEndPayload
  latestFrameIndex : Int
  lastFinalizedFrame : Int
  gameInfoComplete : Bool
deriving DecidableEq, Repr, Inhabited

/-- `NewSlpParser`. -/
def NewSlpParser (options : SlpParserOpts) : ParserState :=
  { Options := options
    Frames := []
    Rollbacks :=
      { Frames := [], Count := 0, Lengths := [], playerIndex := -1,
        lastFrameWasRollback := false, currentRollbackLength := 0 }
    gameInfo := none
    GameEnd := none
    latestFrameIndex := -124
    lastFinalizedFrame := -124
    gameInfoComplete := false }

/-- One `Trigger` call: the `ParserEvent` together with its payload. The
finalized frame number is recorded alongside the `FinalizedFrame` payload (it
is the loop variable `toFinalize` of the emitting iteration). -/
inductive Emission where
| started (gi : Option GameInfo)
| frame (f : FrameEntry)
| finalizedFrame (n : Int) (f : FrameEntry)
| rollbackFrame (f : FrameEntry)
| ended (g : GameEndPayload)
deriving DecidableEq, Repr

/-- The parser's `errors.New` sites, as structured values (each constructor is
one distinct format string in the source). -/
inductive PErr where
| missingPlayer (toFinalize target : Int) (player : Nat)
| missingUpdate (toFinalize target : Int) (missing : FrameUpdateType) (player : Nat)
| rollbackWindowViolation (frameNumber : Int)
deriving DecidableEq, Repr

/-- Result of one handler call: `ok` carries the new state, the emissions and
the Go `error` return value; `panic` models a runtime panic (nil-pointer
dereference or failed type assertion), carrying the state and emissions that
had already happened when the panic fired. -/
inductive HRes where
| ok (s : ParserState) (t : List Emission) (err : Option PErr)
| panic (s : ParserState) (t : List Emission)
deriving DecidableEq, Repr

/-- State component of a handler result. -/
def HRes.state : HRes → ParserState
| .ok s _ _ => s
| .panic s _ => s

/-- Trace component of a handler result. -/
def HRes.trace : HRes → List Emission
| .ok _ t _ => t
| .panic _ t => t

/-- Error component of a handler result. -/
def HRes.errOf : HRes → Option PErr
| .ok _ _ e => e
| .panic _ _ => none

/-- Prepend already-emitted events to a handler result. -/
def HRes.withPre (t0 : List Emission) : HRes → HRes
| .ok s t e => .ok s (t0 ++ t) e
| .panic s t => .panic s (t0 ++ t)

/-- `MaxRollbackFrames`. -/
def MaxRollbackFrames : Int := 7

/-- `SlpParser.getFrame`. -/
def getFrame (p : ParserState) (frameNumber : Int) : FrameEntry :=
  (lookupA p.Frames frameNumber).getD emptyFrameEntry

/-- `SlpParser.completeGameInfo`. -/
def completeGameInfo (p : ParserState) : ParserState × List Emission :=
  if p.gameInfoComplete then (p, [])
  else ({ p with gameInfoComplete := true }, [Emission.started p.gameInfo])

/-- `SlpParser.handleGameStart` (never returns an error in the source). -/
def handleGameStart (p : ParserState) (payload : GameStartPayload) :
    ParserState × List Emission :=
  let players := payload.Players.filter (fun player => player.PlayerType ≠ PlayerType.Empty)
  let gi : GameInfo :=
    { Version := payload.Version
      Teams := payload.GameInfoBlock.IsTeams
      PAL := payload.PAL
      Stage := payload.GameInfoBlock.Stage
      Players := players
      MajorScene := payload.MajorScene
      MinorScene := payload.MinorScene }
  let p1 := { p with gameInfo := some gi }
  if Version.gte payload.Version { major := 1, minor := 6, patch := 0 } then
    completeGameInfo p1
  else (p1, [])

/-- The strict-mode per-player presence check inside `finalizeFrames`' loop
body (`total` is `len(p.gameInfo.Players)`); returns the first error, if any. -/
def finalizeStrictCheck (total : Nat) (players : List PlayerInfo)
    (frame : FrameEntry) (toFinalize target : Int) : Option PErr :=
  match players with
  | [] => none
  | player :: rest =>
    match lookupA frame.Players player.Index with
    | none =>
      if total > 2 then finalizeStrictCheck total rest frame toFinalize target
      else some (PErr.missingPlayer toFinalize target player.Index)
    | some pfi =>
      if pfi.Pre = none ∨ pfi.Post = none then
        some (PErr.missingUpdate toFinalize target
          (if pfi.Pre ≠ none then FrameUpdateType.Post else FrameUpdateType.Pre)
          player.Index)
      else finalizeStrictCheck total rest frame toFinalize target

/-- The strict-mode gate of a `finalizeFrames` iteration: nothing to check
when not strict; in strict mode it dereferences `p.gameInfo` (`none` = panic)
and otherwise runs the per-player check, yielding `some (its error, if any)`. -/
def strictGate (p : ParserState) (frame : FrameEntry) (toFinalize target : Int) :
    Option (Option PErr) :=
  if p.Options.Strict then
    match p.gameInfo with
    | none => none
    | some gi =>
      some (finalizeStrictCheck gi.Players.length gi.Players frame toFinalize target)
  else some none

/-- The loop of `SlpParser.finalizeFrames`, recursing on a fuel that bounds the
iteration count (each iteration advances `lastFinalizedFrame` by one, so
`(target - lastFinalizedFrame).toNat` iterations suffice; with the exact fuel
the `0` case coincides with the loop-exit case `lastFinalizedFrame ≥ target`). -/
def finalizeLoop (fuel : Nat) (p : ParserState) (target : Int) : HRes :=
  match fuel with
  | 0 => .ok p [] none
  | fuel + 1 =>
    if p.lastFinalizedFrame < target then
      let toFinalize := p.lastFinalizedFrame + 1
      match lookupA p.Frames toFinalize with
      | none => .ok p [] none
      | some frame =>
        match strictGate p frame toFinalize target with
        | none => .panic p []
        | some (some e) => .ok p [] (some e)
        | some none =>
          let p' := { p with lastFinalizedFrame := toFinalize }
          match finalizeLoop fuel p' target with
          | .ok s t e => .ok s (Emission.finalizedFrame toFinalize frame :: t) e
          | .panic s t => .panic s (Emission.finalizedFrame toFinalize frame :: t)
    else .ok p [] none

/-- `SlpParser.finalizeFrames`. -/
def finalizeFrames (p : ParserState) (target : Int) : HRes :=
  finalizeLoop (target - p.lastFinalizedFrame).toNat p target

/-- The rollback-check section of `handleFrameUpdate` (it runs for
non-follower pre-frame updates). The Go code passes `&currentFrame`, the
address of a local copy of the map entry, which is never nil: the snapshot
argument is always `some`. Returns the updated state and the `RollbackFrame`
emission, if any. -/
def rollbackStep (p1 : ParserState) (updateType : FrameUpdateType) (isFollower : Bool)
    (frameNumber : Int) (playerIndex : Nat) : ParserState × List Emission :=
  if updateType = FrameUpdateType.Pre ∧ isFollower = false then
    let currentFrame := (lookupA p1.Frames frameNumber).getD emptyFrameEntry
    let rc := p1.Rollbacks.checkIfRollbackFrame frameNumber (some currentFrame) playerIndex
    let p2 := { p1 with Rollbacks := rc.1 }
    if rc.2 then (p2, [Emission.rollbackFrame currentFrame]) else (p2, [])
  else (p1, [])

/-- The install section of `handleFrameUpdate`: the Go switch over
`updateType` with its type assertions on the payload; `none` is the
(unreachable from `handleEvent`) assertion mismatch, a panic. -/
def installUpdate (frame : FrameEntry) (updateType : FrameUpdateType)
    (payload : FrameUpdatePayload) (playerIndex : Nat) (isFollower : Bool) :
    Option FrameEntry :=
  if isFollower then
    let follower := (lookupA frame.Followers playerIndex).getD { Pre := none, Post := none }
    match updateType, payload with
    | FrameUpdateType.Pre, .pre preFrameUpdate =>
      let follower1 := { follower with Pre := some preFrameUpdate }
      some { frame with Followers := insertA frame.Followers playerIndex follower1 }
    | FrameUpdateType.Post, .post postFrameUpdate =>
      let follower1 := { follower with Post := some postFrameUpdate }
      some { frame with Followers := insertA frame.Followers playerIndex follower1 }
    | _, _ => none
  else
    let player := (lookupA frame.Players playerIndex).getD { Pre := none, Post := none }
    match updateType, payload with
    | FrameUpdateType.Pre, .pre preFrameUpdate =>
      let player1 := { player with Pre := some preFrameUpdate }
      some { frame with Players := insertA frame.Players playerIndex player1 }
    | FrameUpdateType.Post, .post postFrameUpdate =>
      let player1 := { player with Post := some postFrameUpdate }
      some { frame with Players := insertA frame.Players playerIndex player1 }
    | _, _ => none

/-- `SlpParser.handleFrameUpdate`: record the latest frame index, run the
rollback check, install the update, store the frame, and either emit `Frame`
plus finalize (version ≤ 2.2.0) or clear `IsTransferComplete`. -/
def handleFrameUpdate (p0 : ParserState) (updateType : FrameUpdateType)
    (payload : FrameUpdatePayload) : HRes :=
  let frameUpdate := payload.GetFrameUpdate
  let frameNumber := frameUpdate.FrameNumber
  let isFollower := frameUpdate.IsFollower
  let playerIndex := frameUpdate.PlayerIndex
  let frame := getFrame p0 frameNumber
  let p1 := { p0 with latestFrameIndex := frameNumber }
  let stepped := rollbackStep p1 updateType isFollower frameNumber playerIndex
  let p2 := stepped.1
  let rbTrace := stepped.2
  match installUpdate frame updateType payload playerIndex isFollower with
  | none => .panic p2 rbTrace
  | some frame1 =>
    let p3 := { p2 with Frames := insertA p2.Frames frameNumber frame1 }
    match p3.gameInfo with
    | some gi =>
      if Version.lte gi.Version { major := 2, minor := 2, patch := 0 } then
        let emitted := (lookupA p3.Frames frameNumber).getD emptyFrameEntry
        (finalizeFrames p3 (frameNumber - 1)).withPre (rbTrace ++ [Emission.frame emitted])
      else
        let frame2 := { frame1 with IsTransferComplete := false }
        .ok { p3 with Frames := insertA p3.Frames frameNumber frame2 } rbTrace none
    | none =>
      let frame2 := { frame1 with IsTransferComplete := false }
      .ok { p3 with Frames := insertA p3.Frames frameNumber frame2 } rbTrace none

/-- The character-mapping patch applied by `handlePostFrameUpdate`. -/
def patchPlayer (payload : PostFrameUpdatePayload) (player : PlayerInfo) : PlayerInfo :=
  if player.Index = payload.FrameUpdate.PlayerIndex then
    if payload.InternalCharacterID = 0x7 then { player with CharacterID := 0x13 }
    else if payload.InternalCharacterID = 0x13 then { player with CharacterID := 0x12 }
    else player
  else player

/-- `SlpParser.handlePostFrameUpdate`. With game info incomplete and a frame
number ≤ -123 it ranges over `p.gameInfo.Players`, a nil dereference (panic)
when no `GameStart` has been handled. -/
def handlePostFrameUpdate (p : ParserState) (payload : PostFrameUpdatePayload) : HRes :=
  match handleFrameUpdate p FrameUpdateType.Post (.post payload) with
  | .panic s t => .panic s t
  | .ok s t (some e) => .ok s t (some e)
  | .ok s t none =>
    if s.gameInfoComplete then .ok s t none
    else if payload.FrameUpdate.FrameNumber ≤ -123 then
      match s.gameInfo with
      | none => .panic s t
      | some gi =>
        let gi' := { gi with Players := gi.Players.map (patchPlayer payload) }
        .ok { s with gameInfo := some gi' } t none
    else
      let done := completeGameInfo s
      .ok done.1 (t ++ done.2) none

/-- `SlpParser.handleGameEnd`: a finalization error is held in a local and the
payload store plus `Ended` emission still happen before it is returned. -/
def handleGameEnd (p : ParserState) (payload : GameEndPayload) : HRes :=
  if p.latestFrameIndex > -124 ∧ p.latestFrameIndex ≠ p.lastFinalizedFrame then
    match finalizeFrames p p.latestFrameIndex with
    | .panic s t => .panic s t
    | .ok s t e =>
      .ok { s with GameEnd := some payload } (t ++ [Emission.ended payload]) e
  else
    .ok { p with GameEnd := some payload } [Emission.ended payload] none

/-- `SlpParser.handleItemUpdate`. -/
def handleItemUpdate (p : ParserState) (payload : ItemUpdatePayload) : ParserState :=
  let frame := getFrame p payload.FrameNumber
  let frame1 := { frame with Items := frame.Items ++ [payload] }
  { p with Frames := insertA p.Frames payload.FrameNumber frame1 }

/-- `SlpParser.handleFrameBookend`. The `Frame` emission happens before
`p.gameInfo.MajorScene` is read, so a bookend with no prior `GameStart` emits
`Frame` and then panics. -/
def handleFrameBookend (p : ParserState) (payload : FrameBookendPayload) : HRes :=
  let latestFinalizedFrame := payload.LatestFinalizedFrame
  let frameNumber := payload.FrameNumber
  let frame := getFrame p frameNumber
  let frame1 := { frame with IsTransferComplete := true }
  let p1 := { p with Frames := insertA p.Frames frameNumber frame1 }
  let t0 := [Emission.frame frame1]
  match p1.gameInfo with
  | none => .panic p1 t0
  | some gi =>
    let validLatestFrame := gi.MajorScene = 0x8
    if validLatestFrame ∧ latestFinalizedFrame ≥ -123 then
      if p1.Options.Strict ∧ latestFinalizedFrame < frameNumber - MaxRollbackFrames then
        .ok p1 t0 (some (PErr.rollbackWindowViolation frameNumber))
      else
        (finalizeFrames p1 latestFinalizedFrame).withPre t0
    else
      (finalizeFrames p1 (frameNumber - MaxRollbackFrames)).withPre t0

/-- `SlpParser.handleEvent`: dispatch on the command; commands without a case
in the Go switch (message splitter, event payloads, frame start, gecko list)
leave the state unchanged and return no error. -/
def handleEvent (p : ParserState) (event : SlpEvent) : HRes :=
  match event with
  | .gameStart payload =>
    let done := handleGameStart p payload
    .ok done.1 done.2 none
  | .preFrameUpdate payload => handleFrameUpdate p FrameUpdateType.Pre (.pre payload)
  | .postFrameUpdate payload => handlePostFrameUpdate p payload
  | .gameEnd payload => handleGameEnd p payload
  | .itemUpdate payload => .ok (handleItemUpdate p payload) [] none
  | .frameBookend payload => handleFrameBookend p payload
  | _ => .ok p [] none

/-- The errors a reader can place on the event channel: an I/O failure
(read past the end of the source), or a `parsePayload` decode failure (the
`errors.New` / bubbled-up error sites of the decoder, as structured values). -/
inductive RErr where
| ioEOF
| decodeUnknownCommand (b : Nat)
| decodeShortInt
| decodeEncoding
| badPreamble
| badFirstEvent (b : Nat)
deriving DecidableEq, Repr

/-- `SlpEventResult` from the source: an optional event and an optional error
(both pointers in Go; the unknown-command path sends both as nil). -/
structure SlpEventResult where
  Event : Option SlpEvent
  Error : Option RErr
deriving DecidableEq, Repr

/-- Byte-slice `b[a:c]` of a payload byte list. -/
def sliceB (l : List Nat) (a c : Nat) : List Nat := (l.take c).drop a

/-- Big-endian value of a byte list (`binary.BigEndian.Uint16/Uint32` on the
exact-length slices the decoder passes). -/
def beBytes (b : List Nat) : Nat := b.foldl (fun acc x => acc * 256 + x % 256) 0

/-- Go index `b[i]`. All call sites index within the payload buffer, whose
length is the learned payload size; out-of-range (which would panic in Go)
never occurs in the runs evaluated here and defaults to 0. -/
def byteAt (l : List Nat) (i : Nat) : Nat := l.getD i 0

/-- Two's-complement reading of a 32-bit big-endian unsigned value, as done by
`binary.Read` into an `int32`. -/
def toInt32 (n : Nat) : Int :=
  if n % 4294967296 < 2147483648 then ((n % 4294967296 : Nat) : Int)
  else ((n % 4294967296 : Nat) : Int) - 4294967296

/-- `readInt` from the source: big-endian int32; `binary.Read` fails when the
buffer holds fewer than 4 bytes. -/
def readInt (b : List Nat) : Except RErr Int :=
  if b.length < 4 then .error RErr.decodeShortInt
  else .ok (toInt32 (beBytes (b.take 4)))

/-- `readFloat` from the source: `math.Float32frombits` of the big-endian
word. The float is kept as its raw bit pattern. -/
def readFloat (b : List Nat) : Nat := beBytes b

/-- `nullTerminate` from the source: the prefix before the first zero byte. -/
def nullTerminate (b : List Nat) : List Nat := b.takeWhile (fun x => x ≠ 0)

/-- A Go `string(bytes)` conversion for the byte values that occur here. -/
def asciiString (b : List Nat) : String := String.mk (b.map Char.ofNat)

/-- Modelled from the spec: `decodeShiftJIS` calls the external
`golang.org/x/text` Shift-JIS decoder (out of scope per the spec), writes into
a 128-byte buffer and null-terminates; a decode failure surfaces as an
*Encoding* error. Only the ASCII subset is modelled (on ASCII input Shift-JIS
decoding is the identity); non-ASCII input is treated as the error case. -/
def decodeShiftJIS (b : List Nat) : Except RErr String :=
  if b.all (fun x => x < 0x80) then .ok (asciiString (nullTerminate b))
  else .error RErr.decodeEncoding

/-- The descriptor loop of the `EventPayloads` case of `parsePayload`:
`for position := 1; position < payloadsLength; position += 3`. The fuel bounds
the iteration count (each iteration advances `position` by 3). -/
def epLoop (b : List Nat) (payloadsLength : Nat) : Nat → Nat → List (Nat × Nat) → List (Nat × Nat)
| _, 0, acc => acc
| position, fuel + 1, acc =>
  if position < payloadsLength then
    epLoop b payloadsLength (position + 3) fuel
      (insertA acc (byteAt b position) (beBytes (sliceB b (position + 1) (position + 3))))
  else acc

/-- The per-slot player decoder `getPlayerData` inside the `GameStart` case of
`parsePayload`. -/
def getPlayerData (payloadBytes : List Nat) (playerIndex : Nat) : Except RErr PlayerInfo := do
  let nametagOffset := 0x10 * playerIndex
  let nametag ← decodeShiftJIS (sliceB payloadBytes (0x160 + nametagOffset) (0x170 + nametagOffset))
  let displayNameOffset := 0x1F * playerIndex
  let displayName ← decodeShiftJIS (sliceB payloadBytes (0x1A4 + displayNameOffset) (0x1C3 + displayNameOffset))
  let connectCodeOffset := 0xA * playerIndex
  let connectCode ← decodeShiftJIS (sliceB payloadBytes (0x220 + connectCodeOffset) (0x22B + connectCodeOffset))
  let gameInfoOffset := 0x24 * playerIndex
  let slippiUIDOffset := 0x1D * playerIndex
  let fixOffset := 0x8 * playerIndex
  return {
    Index := 0
    Port := 1
    CharacterID := byteAt payloadBytes (0x64 + gameInfoOffset)
    PlayerType := byteAt payloadBytes (0x65 + gameInfoOffset)
    StockStartCount := byteAt payloadBytes (0x66 + gameInfoOffset)
    CostumeIndex := byteAt payloadBytes (0x67 + gameInfoOffset)
    TeamShade := byteAt payloadBytes (0x6B + gameInfoOffset)
    Handicap := byteAt payloadBytes (0x6C + gameInfoOffset)
    TeamID := byteAt payloadBytes (0x6D + gameInfoOffset)
    PlayerBitfield := byteAt payloadBytes (0x70 + gameInfoOffset)
    CPULevel := byteAt payloadBytes (0x73 + gameInfoOffset)
    OffenseRatio := readFloat (sliceB payloadBytes (0x7C + gameInfoOffset) (0x80 + gameInfoOffset))
    DefenseRatio := readFloat (sliceB payloadBytes (0x80 + gameInfoOffset) (0x84 + gameInfoOffset))
    ModelScale := readFloat (sliceB payloadBytes (0x84 + gameInfoOffset) (0x88 + gameInfoOffset))
    DashbackFix := beBytes (sliceB payloadBytes (0x140 + fixOffset) (0x144 + fixOffset))
    ShieldDropFix := beBytes (sliceB payloadBytes (0x144 + fixOffset) (0x148 + fixOffset))
    Nametag := nametag
    DisplayName := displayName
    ConnectCode := connectCode
    SlippiUID := asciiString (nullTerminate (sliceB payloadBytes (0x248 + slippiUIDOffset) (0x265 + slippiUIDOffset))) }

/-- `parsePayload` from the source: pure decoding of `(command, payload bytes)`
into a typed event. The default case is the "unknown command" error. -/
def parsePayload (command : Nat) (payloadBytes : List Nat) : Except RErr SlpEvent :=
  if command = 0x10 then
    .ok (.messageSplitter {
      Data := sliceB payloadBytes 0x0 0x200
      DataLength := beBytes (sliceB payloadBytes 0x200 0x202)
      InternalCommand := byteAt payloadBytes 0x202
      LastMessage := byteAt payloadBytes 0x203 ≠ 0 })
  else if command = 0x35 then
    let payloadsLength := byteAt payloadBytes 0
    .ok (.eventPayloads {
      PayloadSize := payloadsLength
      PayloadSizes := epLoop payloadBytes payloadsLength 1 payloadsLength [] })
  else if command = 0x36 then do
    let player0 ← getPlayerData payloadBytes 0
    let player1 ← getPlayerData payloadBytes 1
    let player2 ← getPlayerData payloadBytes 2
    let player3 ← getPlayerData payloadBytes 3
    return .gameStart {
      Version := {
        major := byteAt payloadBytes 0
        minor := byteAt payloadBytes 1
        patch := byteAt payloadBytes 2 }
      GameInfoBlock := {
        GameBitfield1 := byteAt payloadBytes 0x4
        GameBitfield2 := byteAt payloadBytes 0x5
        GameBitfield3 := byteAt payloadBytes 0x6
        GameBitfield4 := byteAt payloadBytes 0x7
        BombRain := byteAt payloadBytes 0xA
        IsTeams := byteAt payloadBytes 0xC ≠ 0
        ItemSpawnBehavior := toInt8ofByte (byteAt payloadBytes 0xF)
        SelfDestructScoreValue := toInt8ofByte (byteAt payloadBytes 0x10)
        Stage := beBytes (sliceB payloadBytes 0x12 0x14)
        GameTimer := beBytes (sliceB payloadBytes 0x14 0x18)
        ItemSpawnBitfield1 := byteAt payloadBytes 0x27
        ItemSpawnBitfield2 := byteAt payloadBytes 0x28
        ItemSpawnBitfield3 := byteAt payloadBytes 0x29
        ItemSpawnBitfield4 := byteAt payloadBytes 0x2A
        ItemSpawnBitfield5 := byteAt payloadBytes 0x2B
        DamageRatio := readFloat (sliceB payloadBytes 0x34 0x38) }
      Players := [player0, player1, player2, player3]
      RandomSeed := beBytes (sliceB payloadBytes 0x13C 0x140)
      PAL := byteAt payloadBytes 0x1A0 ≠ 0
      FrozenPS := byteAt payloadBytes 0x1A1 ≠ 0
      MinorScene := byteAt payloadBytes 0x1A2
      MajorScene := byteAt payloadBytes 0x1A3
      LanguageOption := byteAt payloadBytes 0x2BC }
  else if command = 0x37 then do
    let frameNumber ← readInt (sliceB payloadBytes 0x0 0x4)
    return .preFrameUpdate {
      FrameUpdate := {
        FrameNumber := frameNumber
        PlayerIndex := byteAt payloadBytes 0x4
        IsFollower := byteAt payloadBytes 0x5 ≠ 0
        ActionStateID := beBytes (sliceB payloadBytes 0xA 0xC)
        XPosition := readFloat (sliceB payloadBytes 0xC 0x10)
        YPosition := readFloat (sliceB payloadBytes 0x10 0x14)
        FacingDirection := readFloat (sliceB payloadBytes 0x14 0x18)
        Percent := readFloat (sliceB payloadBytes 0x3B 0x3F) }
      RandomSeed := beBytes (sliceB payloadBytes 0x6 0xA)
      JoystickX := readFloat (sliceB payloadBytes 0x18 0x1C)
      JoystickY := readFloat (sliceB payloadBytes 0x1C 0x20)
      CStickX := readFloat (sliceB payloadBytes 0x20 0x24)
      CStickY := readFloat (sliceB payloadBytes 0x24 0x28)
      Trigger := readFloat (sliceB payloadBytes 0x28 0x2C)
      ProcessedButtons := beBytes (sliceB payloadBytes 0x2C 0x30)
      PhysicalButtons := beBytes (sliceB payloadBytes 0x30 0x32)
      PhysicalLTrigger := readFloat (sliceB payloadBytes 0x32 0x36)
      PhysicalRTrigger := readFloat (sliceB payloadBytes 0x36 0x3A)
      XAnalogUCF := byteAt payloadBytes 0x3A }
  else if command = 0x38 then do
    let frameNumber ← readInt (sliceB payloadBytes 0x0 0x4)
    return .postFrameUpdate {
      FrameUpdate := {
        FrameNumber := frameNumber
        PlayerIndex := byteAt payloadBytes 0x4
        IsFollower := byteAt payloadBytes 0x5 ≠ 0
        ActionStateID := beBytes (sliceB payloadBytes 0x7 0x9)
        XPosition := readFloat (sliceB payloadBytes 0x9 0xD)
        YPosition := readFloat (sliceB payloadBytes 0xD 0x11)
        FacingDirection := readFloat (sliceB payloadBytes 0x11 0x15)
        Percent := readFloat (sliceB payloadBytes 0x15 0x19) }
      InternalCharacterID := byteAt payloadBytes 0x6
      ShieldSize := readFloat (sliceB payloadBytes 0x19 0x1D)
      LastHittingAttackID := byteAt payloadBytes 0x1D
      CurrentComboCount := byteAt payloadBytes 0x1E
      LastHitBy := byteAt payloadBytes 0x1F
      StocksRemaining := byteAt payloadBytes 0x20
      ActionStateFrameCounter := readFloat (sliceB payloadBytes 0x21 0x25)
      StateBitFlags1 := byteAt payloadBytes 0x25
      StateBitFlags2 := byteAt payloadBytes 0x26
      StateBitFlags3 := byteAt payloadBytes 0x27
      StateBitFlags4 := byteAt payloadBytes 0x28
      StateBitFlags5 := byteAt payloadBytes 0x29
      MiscAS := readFloat (sliceB payloadBytes 0x2A 0x2E)
      Airborne := byteAt payloadBytes 0x2E ≠ 0
      LastGroundID := beBytes (sliceB payloadBytes 0x2F 0x31)
      JumpsRemaining := byteAt payloadBytes 0x31
      LCancelStatus := byteAt payloadBytes 0x32
      HurtboxCollisionState := byteAt payloadBytes 0x33
      SelfInducedAirXSpeed := readFloat (sliceB payloadBytes 0x34 0x38)
      SelfInducedYSpeed := readFloat (sliceB payloadBytes 0x38 0x3C)
      AttackBasedXSpeed := readFloat (sliceB payloadBytes 0x3C 0x40)
      AttackBasedYSpeed := readFloat (sliceB payloadBytes 0x40 0x44)
      SelfInducedGroundXSpeed := readFloat (sliceB payloadBytes 0x44 0x48)
      HitlagFramesRemaining := readFloat (sliceB payloadBytes 0x48 0x4C)
      AnimationIndex := beBytes (sliceB payloadBytes 0x4C 0x50) }
  else if command = 0x39 then
    .ok (.gameEnd {
      GameEndMethod := byteAt payloadBytes 0x0
      LRASInitiator := toInt8ofByte (byteAt payloadBytes 0x1) })
  else if command = 0x3A then do
    let frameNumber ← readInt (sliceB payloadBytes 0x0 0x4)
    return .frameStart {
      FrameNumber := frameNumber
      RandomSeed := beBytes (sliceB payloadBytes 0x4 0x8)
      SceneFrameCounter := beBytes (sliceB payloadBytes 0x8 0xC) }
  else if command = 0x3B then do
    let frameNumber ← readInt (sliceB payloadBytes 0x0 0x4)
    return .itemUpdate {
      FrameNumber := frameNumber
      TypeID := beBytes (sliceB payloadBytes 0x4 0x6)
      State := byteAt payloadBytes 0x6
      FacingDirection := readFloat (sliceB payloadBytes 0x7 0xB)
      XVelocity := readFloat (sliceB payloadBytes 0xB 0xF)
      YVelocity := readFloat (sliceB payloadBytes 0xF 0x13)
      XPosition := readFloat (sliceB payloadBytes 0x13 0x17)
      YPosition := readFloat (sliceB payloadBytes 0x17 0x1B)
      DamageTaken := beBytes (sliceB payloadBytes 0x1B 0x1D)
      ExpirationTimer := readFloat (sliceB payloadBytes 0x1D 0x21)
      SpawnID := beBytes (sliceB payloadBytes 0x21 0x25)
      SamusMissileType := byteAt payloadBytes 0x25
      PeachTurnipFace := byteAt payloadBytes 0x26
      IsLaunched := byteAt payloadBytes 0x27
      ChargedPower := byteAt payloadBytes 0x28
      Owner := toInt8ofByte (byteAt payloadBytes 0x29) }
  else if command = 0x3C then do
    let frameNumber ← readInt (sliceB payloadBytes 0x0 0x4)
    let latestFinalizedFrame ← readInt (sliceB payloadBytes 0x4 0x8)
    return .frameBookend {
      FrameNumber := frameNumber
      LatestFinalizedFrame := latestFinalizedFrame }
  else if command = 0x3D then
    .ok (.geckoList { GeckoCodes := payloadBytes })
  else .error (.decodeUnknownCommand command)

/-- Read `k` bytes at absolute offset `cur`; an incomplete read is the I/O
error case (only reachable at end of file). -/
def readBytes (src : List Nat) (cur k : Nat) : Option (List Nat) :=
  if cur + k ≤ src.length then some ((src.drop cur).take k) else none

/-- The include set built by `NewSlpReader`: `0x10` plus `0x35..0x3D`. -/
def defaultIncludeMap : List (Nat × Bool) :=
  (0x10, true) :: (List.range 9).map (fun i => (0x35 + i, true))

/-- `SlpReader`; the byte source is the full file contents, addressed
absolutely (the Go field `include` is named `includeMap` here). -/
structure SlpReaderM where
  Source : List Nat
  includeMap : List (Nat × Bool)
  RawStart : Nat
  RawLength : Nat
  MetadataStart : Int
  MetadataLength : Int
  PayloadSizes : List (Nat × Nat)
deriving DecidableEq, Repr

/-- The descriptor-reading loop of `NewSlpReader`: reads 3-byte triples while
`payloadsBytesRead < payloadsLength`, recording `(command, size)`. The fuel
bounds the iteration count (each read advances the counter by 3). -/
def descriptorLoop (src : List Nat) (payloadsLength : Nat) :
    Nat → Nat → Nat → List (Nat × Nat) → Except RErr (List (Nat × Nat))
| _, _, 0, acc => .ok acc
| cur, payloadsBytesRead, fuel + 1, acc =>
  if payloadsBytesRead < payloadsLength then
    match readBytes src cur 3 with
    | none => .error RErr.ioEOF
    | some eventInfo =>
      descriptorLoop src payloadsLength (cur + 3) (payloadsBytesRead + 3) fuel
        (insertA acc (byteAt eventInfo 0) (beBytes (sliceB eventInfo 1 3)))
  else .ok acc

/-- `NewSlpReader`: verify the 11-byte preamble, take the raw-region length
from its last 4 bytes, place the metadata region, require the first raw event
to be `EventPayloads` (0x35), learn the payload-size table from its
descriptor, and enable all known commands. -/
def NewSlpReaderM (s : List Nat) : Except RErr SlpReaderM := do
  let length := s.length
  let preamble ← match readBytes s 0 15 with
    | none => Except.error RErr.ioEOF
    | some b => Except.ok b
  if sliceB preamble 0 11 ≠ [0x7B, 0x55, 0x03, 0x72, 0x61, 0x77, 0x5B, 0x24, 0x55, 0x23, 0x6C] then
    Except.error RErr.badPreamble
  else
    let rawStart : Nat := 15
    let rawLength := beBytes (sliceB preamble 11 15)
    let metadataStart : Int := (rawStart : Int) + (rawLength : Int) + 10
    let metadataLength : Int := (length : Int) - metadataStart - 1
    let eventPayloads ← match readBytes s 15 2 with
      | none => Except.error RErr.ioEOF
      | some b => Except.ok b
    if byteAt eventPayloads 0 ≠ 0x35 then
      Except.error (RErr.badFirstEvent (byteAt eventPayloads 0))
    else
      let payloadsLength := byteAt eventPayloads 1
      let sizes0 : List (Nat × Nat) := [(0x35, payloadsLength)]
      let payloadSizes ← descriptorLoop s payloadsLength 17 1 payloadsLength sizes0
      return {
        Source := s
        includeMap := defaultIncludeMap
        RawStart := rawStart
        RawLength := rawLength
        MetadataStart := metadataStart
        MetadataLength := metadataLength
        PayloadSizes := payloadSizes }

/-- `SlpReader.SetInclude`: rejects commands outside the known set, otherwise
updates the include map. -/
def SetInclude (r : SlpReaderM) (command : Nat) (inc : Bool) : Except Unit SlpReaderM :=
  if command ≠ 0x10 ∧ (command < 0x35 ∨ command > 0x3D) then .error ()
  else .ok { r with includeMap := insertA r.includeMap command inc }

/-- The loop of the `YieldEvents` goroutine. `cur` is the true source offset
(reads and seeks both advance it); `position` is the loop's own counter, which
the source advances only on `Read` calls — the skip branch seeks past the
payload without adding its size to `position`. The fuel bounds the iteration
count (every iteration adds at least the command byte to `position`). -/
def yieldLoop (r : SlpReaderM) (stopYielding : SlpEvent → Bool) (endP : Int) :
    Nat → Int → Nat → List SlpEventResult
| _, _, 0 => []
| cur, position, fuel + 1 =>
  if position < endP then
    match readBytes r.Source cur 1 with
    | none => [{ Event := none, Error := some RErr.ioEOF }]
    | some commandBuf =>
      let command := byteAt commandBuf 0
      let cur1 := cur + 1
      let position1 := position + 1
      match lookupA r.PayloadSizes command with
      | none =>
        -- Source bug kept as-is: the Go code sends `Error: err` here, and
        -- `err` is still nil from the successful command-byte read.
        [{ Event := none, Error := none }]
      | some size =>
        if (lookupA r.includeMap command).getD false = false then
          yieldLoop r stopYielding endP (cur1 + size) position1 fuel
        else
          match readBytes r.Source cur1 size with
          | none => [{ Event := none, Error := some RErr.ioEOF }]
          | some payload =>
            match parsePayload command payload with
            | .error e => [{ Event := none, Error := some e }]
            | .ok event =>
              { Event := some event, Error := none } ::
                (if stopYielding event then []
                 else yieldLoop r stopYielding endP (cur1 + size) (position1 + size) fuel)
  else []

/-- `SlpReader.YieldEvents`: seek to the raw start and run the loop with
`end := RawStart + RawLength - 1`. -/
def yieldEvents (r : SlpReaderM) (stopYielding : SlpEvent → Bool) : List SlpEventResult :=
  yieldLoop r stopYielding ((r.RawStart : Int) + (r.RawLength : Int) - 1)
    r.RawStart (r.RawStart : Int) (r.Source.length + 1)

/-- A stop cause for a parse run: an error surfaced by the reader on the
event channel, or an error returned by a parser handler. -/
inductive StopCause where
| readerErr (e : RErr)
| parserErr (e : PErr)
deriving DecidableEq, Repr

/-- Outcome of running the parser over an event sequence: completion, an
aborting error (`ParseReplay` returns on the first non-nil error) or a panic.
The parser state is carried in every case (the Go `SlpParser` object survives,
reachable by a caller that recovers). -/
inductive RunRes where
| done (s : ParserState) (t : List Emission)
| stopped (s : ParserState) (t : List Emission) (e : StopCause)
| panicked (s : ParserState) (t : List Emission)
deriving DecidableEq, Repr

/-- State component of a run outcome. -/
def RunRes.state : RunRes → ParserState
| .done s _ => s
| .stopped s _ _ => s
| .panicked s _ => s

/-- Trace component of a run outcome. -/
def RunRes.trace : RunRes → List Emission
| .done _ t => t
| .stopped _ t _ => t
| .panicked _ t => t

/-- Prepend already-emitted events to a run outcome. -/
def RunRes.withPre (t0 : List Emission) : RunRes → RunRes
| .done s t => .done s (t0 ++ t)
| .stopped s t e => .stopped s (t0 ++ t) e
| .panicked s t => .panicked s (t0 ++ t)

/-- Run the parser over a list of already-decoded events (the event-handling
loop of `ParseReplay`, with no reader errors in the stream). -/
def runParser (p : ParserState) : List SlpEvent → RunRes
| [] => .done p []
| e :: rest =>
  match handleEvent p e with
  | .panic s t => .panicked s t
  | .ok s t (some err) => .stopped s t (.parserErr err)
  | .ok s t none => (runParser s rest).withPre t

/-- `SlpParser.ParseReplay` over the materialized result sequence: a non-nil
result error aborts with that error (after draining the channel); otherwise
`event := *eventResult.Event` dereferences the event pointer — a panic when
the result carries no event — and the event is handled, aborting on a handler
error. -/
def ParseReplay (p : ParserState) : List SlpEventResult → RunRes
| [] => .done p []
| r :: rest =>
  match r.Error with
  | some e => .stopped p [] (.readerErr e)
  | none =>
    match r.Event with
    | none => .panicked p []
    | some event =>
      match handleEvent p event with
      | .panic s t => .panicked s t
      | .ok s t (some err) => .stopped s t (.parserErr err)
      | .ok s t none => (ParseReplay s rest).withPre t

/-- True on a `panicked` run outcome. -/
def RunRes.isPanicked : RunRes → Bool
| .panicked _ _ => true
| _ => false

/-- The frame numbers of the `FinalizedFrame` emissions of a trace. -/
def finNums (t : List Emission) : List Int :=
  t.filterMap (fun e => match e with | .finalizedFrame n _ => some n | _ => none)

/-- True on a `Frame` emission. -/
def isFrameEmission : Emission → Bool
| .frame _ => true
| _ => false

/-- True on a `FinalizedFrame` emission. -/
def isFinalizedEmission : Emission → Bool
| .finalizedFrame _ _ => true
| _ => false

/-- True on a `RollbackFrame` emission. -/
def isRollbackEmission : Emission → Bool
| .rollbackFrame _ => true
| _ => false

/-- True on a `Started` emission. -/
def isStartedEmission : Emission → Bool
| .started _ => true
| _ => false

/-- Scan of a trace checking that no `Frame` or `FinalizedFrame` emission
occurs before the first `Started` emission (`seen` records whether a `Started`
has been passed); equivalently, that some `Started` precedes every `Frame` and
every `FinalizedFrame`. -/
def startedBefore : Bool → List Emission → Bool
| _, [] => true
| seen, e :: rest =>
  if isStartedEmission e then startedBefore true rest
  else if (isFrameEmission e || isFinalizedEmission e) && !seen then false
  else startedBefore seen rest

/-- Some `Started` emission precedes every `Frame` and every `FinalizedFrame`
emission of the trace. -/
abbrev startedPrecedes (t : List Emission) : Prop := startedBefore false t = true

/-- True on the rollback-window error. -/
def isRollbackWindowErr : Option PErr → Bool
| some (.rollbackWindowViolation _) => true
| _ => false

/-- Events whose handlers touch the per-frame state (the events the parser
files under a frame number). -/
def isFrameRelated : SlpEvent → Bool
| .preFrameUpdate _ => true
| .postFrameUpdate _ => true
| .itemUpdate _ => true
| .frameBookend _ => true
| _ => false

/-- Every frame-related event of the sequence is preceded by a `GameStart`:
scanning from the left, no frame-related event occurs before the first
`GameStart`. -/
def gameStartFirst : List SlpEvent → Bool
| [] => true
| e :: rest =>
  match e with
  | .gameStart _ => true
  | _ => !(isFrameRelated e) && gameStartFirst rest

/-- An `ItemUpdate` event result. -/
def isItemResult (r : SlpEventResult) : Bool :=
  match r.Event with
  | some (.itemUpdate _) => true
  | _ => false

/-- Scenario player: a human player in slot 0 whose `GameStart` character id
is 9 (Peach). -/
def exHumanPlayer : PlayerInfo :=
  { (default : PlayerInfo) with
      Index := 0
      PlayerType := PlayerType.Human
      CharacterID := 9 }

/-- Scenario player: an empty slot. -/
def exEmptyPlayer : PlayerInfo :=
  { (default : PlayerInfo) with PlayerType := PlayerType.Empty }

/-- Scenario `GameStart` payload: given version, major scene 0x8, one human
player in slot 0 and three empty slots. -/
def exGameStart (v : Version) : GameStartPayload :=
  { (default : GameStartPayload) with
      Version := v
      MajorScene := 0x8
      Players := [exHumanPlayer, exEmptyPlayer, exEmptyPlayer, exEmptyPlayer] }

/-- Scenario non-follower pre-frame update for a frame number and player. -/
def exPre (n : Int) (playerIndex : Nat) : PreFrameUpdatePayload :=
  { (default : PreFrameUpdatePayload) with
      FrameUpdate := { (default : FrameUpdate) with
        FrameNumber := n
        PlayerIndex := playerIndex } }

/-- Scenario non-follower post-frame update with an internal character id. -/
def exPost (n : Int) (playerIndex internalCharacterID : Nat) : PostFrameUpdatePayload :=
  { (default : PostFrameUpdatePayload) with
      FrameUpdate := { (default : FrameUpdate) with
        FrameNumber := n
        PlayerIndex := playerIndex }
      InternalCharacterID := internalCharacterID }

/-- Claim C1's replay, as handled events: `GameStart` (version 3.0.0), frames
-123 and -122 each transmitted once (pre-frame updates for player 0), the
pre-frame update for frame -122 retransmitted, then a non-rollback pre-frame
update (frame -121). -/
def c1events : List SlpEvent :=
  [.gameStart (exGameStart { major := 3, minor := 0, patch := 0 }),
   .preFrameUpdate (exPre (-123) 0),
   .preFrameUpdate (exPre (-122) 0),
   .preFrameUpdate (exPre (-122) 0),
   .preFrameUpdate (exPre (-121) 0)]

/-- Claim C1 (status: code_bug). The claim expects one `RollbackFrame`
emission, `Rollbacks.Count = 1` and `Rollbacks.Lengths = [1]` on this replay.
The code instead passes `&currentFrame` — the address of a local copy of the
map entry, never nil — to `checkIfRollbackFrame`, so every non-follower
pre-frame update of the latched player is recorded as a rollback and the
run-closing branch of the ledger is unreachable: `Count = 4`, `Lengths = []`,
and `RollbackFrame` fires four times. -/
theorem C1_rollback_overcount_eval :
    (runParser (NewSlpParser { Strict := false }) c1events).state.Rollbacks.Count = 4 ∧
    (runParser (NewSlpParser { Strict := false }) c1events).state.Rollbacks.Lengths = [] ∧
    ((runParser (NewSlpParser { Strict := false }) c1events).trace.filter isRollbackEmission).length = 4 := by
  refine ⟨?_, ?_, ?_⟩ <;> rfl

/-- Claim C4's replay, as handled events (spec scenario 2): `GameStart` with
version 3.0.0 and one human player in slot 0, `PreFrameUpdate(-123, 0)`,
`PostFrameUpdate(-123, 0, InternalCharacterID = 0x13)`,
`FrameBookend(-123, -123)`. -/
def c4events : List SlpEvent :=
  [.gameStart (exGameStart { major := 3, minor := 0, patch := 0 }),
   .preFrameUpdate (exPre (-123) 0),
   .postFrameUpdate (exPost (-123) 0 0x13),
   .frameBookend { FrameNumber := -123, LatestFinalizedFrame := -123 }]

/-- Claim C4's replay with version 1.5.0 instead (game info not completed at
`GameStart`). -/
def c4eventsOld : List SlpEvent :=
  [.gameStart (exGameStart { major := 1, minor := 5, patch := 0 }),
   .preFrameUpdate (exPre (-123) 0),
   .postFrameUpdate (exPost (-123) 0 0x13),
   .frameBookend { FrameNumber := -123, LatestFinalizedFrame := -123 }]

/-- The character id of the first game-info player after a run. -/
def firstCharacterID (r : RunRes) : Option Nat :=
  (r.state.gameInfo.bind (fun gi => gi.Players.head?)).map (fun player => player.CharacterID)

/-- Claim C4, counterexample: on the scenario-2 replay the character id of
player 0 is still the `GameStart` value 9, not 0x12 — with version 3.0.0 the
game info is complete after `GameStart`, and `handlePostFrameUpdate` returns
before the patch whenever `gameInfoComplete` is set. -/
theorem C4_patch_counterexample :
    firstCharacterID (runParser (NewSlpParser { Strict := false }) c4events) = some 9 ∧
    firstCharacterID (runParser (NewSlpParser { Strict := false }) c4events) ≠ some 0x12 := by
  exact ⟨by rfl, by decide⟩

/-- Claim C4, amended: on the scenario-2 replay the character id of player 0
keeps its `GameStart` value (the patch is skipped because game info completed
at `GameStart`, version ≥ 1.6.0); the patch 0x13 → 0x12 does apply on the same
events when the version is 1.5.0, where game info is still incomplete. -/
theorem C4_patch_amended :
    firstCharacterID (runParser (NewSlpParser { Strict := false }) c4events) = some 9 ∧
    firstCharacterID (runParser (NewSlpParser { Strict := false }) c4eventsOld) = some 0x12 := by
  exact ⟨by rfl, by rfl⟩

/-- Claim C5's counterexample replay: `GameStart` with version exactly 2.2.0,
then one non-follower pre-frame update. -/
def c5events : List SlpEvent :=
  [.gameStart (exGameStart { major := 2, minor := 2, patch := 0 }),
   .preFrameUpdate (exPre (-123) 0)]

/-- Claim C5, counterexample: with version exactly 2.2.0 the parser emits
`Frame` synchronously on the incoming pre-frame update (the guard is
`Version.LTE("2.2.0")`, which 2.2.0 satisfies), contradicting the claim that
2.2.0 finalizes only via `FrameBookend` with no synchronous `Frame`. -/
theorem C5_sync_frame_counterexample :
    ((runParser (NewSlpParser { Strict := false }) c5events).trace.filter isFrameEmission).length = 1 := by
  rfl

/-- Claim C6's counterexample replay: `GameStart` with version 1.0.0 (game
info not completed, so no `Started`), then a pre-frame update, then a
post-frame update with frame > -123 (which finally completes game info and
emits `Started`). -/
def c6events : List SlpEvent :=
  [.gameStart (exGameStart { major := 1, minor := 0, patch := 0 }),
   .preFrameUpdate (exPre (-123) 0),
   .postFrameUpdate (exPost (-122) 0 0),
   .preFrameUpdate (exPre (-121) 0)]

/-- Claim C6, counterexample: with a version below 1.6.0 the synchronous
`Frame` emission of `handleFrameUpdate` fires before game info is ever
completed, so a `Frame` emission precedes the first `Started` emission. -/
theorem C6_started_order_counterexample :
    ¬ startedPrecedes (runParser (NewSlpParser { Strict := false }) c6events).trace := by
  decide

/-- Claim C2's crafted replay file: valid preamble, raw region of length 10
holding the `EventPayloads` descriptor (declaring only `GameEnd`, size 2), a
`GameEnd` event, the unknown byte `0x40` and one padding byte, followed by the
metadata literal and an empty metadata object. -/
def c2bytes : List Nat :=
  [0x7B, 0x55, 0x03, 0x72, 0x61, 0x77, 0x5B, 0x24, 0x55, 0x23, 0x6C, 0, 0, 0, 10] ++
  [0x35, 4, 0x39, 0, 2] ++ [0x39, 2, 0xFF] ++ [0x40] ++ [0x00] ++
  [0x55, 0x08, 0x6D, 0x65, 0x74, 0x61, 0x64, 0x61, 0x74, 0x61] ++ [0x7B, 0x7D] ++ [0x7D]

/-- The reader `NewSlpReader` builds on `c2bytes`. -/
def c2reader : SlpReaderM :=
  { Source := c2bytes
    includeMap := defaultIncludeMap
    RawStart := 15
    RawLength := 10
    MetadataStart := 35
    MetadataLength := 2
    PayloadSizes := [(0x35, 4), (0x39, 2)] }

/-- The `GameEnd` payload of the C2 replay. -/
def c2gameEnd : GameEndPayload := { GameEndMethod := 2, LRASInitiator := -1 }

/-- The decoded `EventPayloads` event of the C2 replay. -/
def c2epEvent : SlpEvent := .eventPayloads { PayloadSize := 4, PayloadSizes := [(0x39, 2)] }

/-- Claim C2 (status: code_bug). On the unknown byte `0x40` the claim expects
a result carrying an UnknownCommand error naming the byte, which the parser
then returns. The code's unknown-command branch instead sends `Error: err`
where `err` is still nil from the preceding successful read, so the emitted
result has both `Event` and `Error` nil; `ParseReplay` sees no error and
dereferences the nil `Event` pointer — a panic, not an error return (the
parser object with the frames parsed so far survives only for a caller that
recovers). -/
theorem C2_unknown_command_eval :
    NewSlpReaderM c2bytes = .ok c2reader ∧
    yieldEvents c2reader (fun _ => false) =
      [{ Event := some c2epEvent, Error := none },
       { Event := some (.gameEnd c2gameEnd), Error := none },
       { Event := none, Error := none }] ∧
    ParseReplay (NewSlpParser { Strict := false }) (yieldEvents c2reader (fun _ => false)) =
      .panicked { NewSlpParser { Strict := false } with GameEnd := some c2gameEnd }
        [Emission.ended c2gameEnd] := by
  refine ⟨?_, ?_, ?_⟩ <;> rfl

/-- Claim C3's crafted replay file: valid preamble, raw region of length 121
holding the `EventPayloads` descriptor (declaring `PreFrameUpdate` size 63,
`ItemUpdate` size 42, `GameEnd` size 2), a pre-frame update for frame -123, an
item update for frame -123, and a `GameEnd`, followed by the metadata literal
and an empty metadata object. -/
def c3bytes : List Nat :=
  [0x7B, 0x55, 0x03, 0x72, 0x61, 0x77, 0x5B, 0x24, 0x55, 0x23, 0x6C, 0, 0, 0, 121] ++
  [0x35, 10, 0x37, 0, 63, 0x3B, 0, 42, 0x39, 0, 2] ++
  ([0x37, 0xFF, 0xFF, 0xFF, 0x85] ++ List.replicate 59 0) ++
  ([0x3B, 0xFF, 0xFF, 0xFF, 0x85] ++ List.replicate 38 0) ++
  [0x39, 2, 0xFF] ++
  [0x55, 0x08, 0x6D, 0x65, 0x74, 0x61, 0x64, 0x61, 0x74, 0x61] ++ [0x7B, 0x7D] ++ [0x7D]

/-- The reader `NewSlpReader` builds on `c3bytes`. -/
def c3readerBase : SlpReaderM :=
  { Source := c3bytes
    includeMap := defaultIncludeMap
    RawStart := 15
    RawLength := 121
    MetadataStart := 146
    MetadataLength := 2
    PayloadSizes := [(0x35, 10), (0x37, 63), (0x3B, 42), (0x39, 2)] }

/-- The C2/C3 reader after `SetInclude(0x3B, false)`. -/
def c3reader : SlpReaderM :=
  { c3readerBase with includeMap := insertA defaultIncludeMap 0x3B false }

/-- All frames of a parser state have empty item lists. -/
def framesHaveNoItems (s : ParserState) : Bool :=
  s.Frames.all (fun entry => entry.2.Items.isEmpty)

/-- Claim C3 (status: code_bug). The reader does skip the excluded
`ItemUpdate` payload with a seek and never yields it (no `ItemUpdate` result,
no items in any frame) — but the skip branch does not add the skipped size to
the loop's `position` counter, so `position < end` stays true past the end of
the raw region: the loop reads the metadata literal's first byte `0x55` as a
command, finds no payload size for it, and emits the spurious nil-event /
nil-error result of the unknown-command branch; the parser then panics
dereferencing the nil event instead of finishing cleanly. All four results
(the three decoded events plus the spurious one) carry a nil error. -/
theorem C3_skip_overrun_eval :
    NewSlpReaderM c3bytes = .ok c3readerBase ∧
    SetInclude c3readerBase 0x3B false = .ok c3reader ∧
    (yieldEvents c3reader (fun _ => false)).length = 4 ∧
    (yieldEvents c3reader (fun _ => false)).map (fun r => r.Error) = [none, none, none, none] ∧
    (yieldEvents c3reader (fun _ => false)).filter isItemResult = [] ∧
    (yieldEvents c3reader (fun _ => false)).getLast? = some { Event := none, Error := none } ∧
    (ParseReplay (NewSlpParser { Strict := false }) (yieldEvents c3reader (fun _ => false))).isPanicked = true ∧
    framesHaveNoItems (ParseReplay (NewSlpParser { Strict := false })
      (yieldEvents c3reader (fun _ => false))).state = true := by
  set_option maxRecDepth 4096 in
  refine ⟨?_, ?_, ?_, ?_, ?_, ?_, ?_, ?_⟩ <;> rfl

/-- Claim C10 (status: confirmed). When `handleGameEnd`'s finalization attempt
returns a strict-mode error, the handler still stores the `GameEnd` payload
and emits `Ended` before returning that same error: the error is held in a
local and the subsequent statements run unconditionally. -/
theorem C10_game_end_stores_on_error
    (p : ParserState) (payload : GameEndPayload) (s : ParserState)
    (t : List Emission) (e : PErr)
    (h1 : p.latestFrameIndex > -124)
    (h2 : p.latestFrameIndex ≠ p.lastFinalizedFrame)
    (h3 : finalizeFrames p p.latestFrameIndex = .ok s t (some e)) :
    handleEvent p (.gameEnd payload) =
      .ok { s with GameEnd := some payload } (t ++ [Emission.ended payload]) (some e) := by
  simp only [handleEvent, handleGameEnd, if_pos (And.intro h1 h2), h3]

/-- Strict scenario state for the game-end claim: strict options, one
game-info player (index 0), frame -123 stored with only a pre-frame update,
`latestFrameIndex = -123`, nothing finalized. -/
def c10state : ParserState :=
  { NewSlpParser { Strict := true } with
      gameInfo := some { (default : GameInfo) with Players := [exHumanPlayer] }
      Frames := [(-123, { emptyFrameEntry with
        Players := [(0, { Pre := some (exPre (-123) 0), Post := none })] })]
      latestFrameIndex := -123 }

/-- Claim C10, witness: on `c10state` finalization fails with a
missing-post-frame error, and `handleGameEnd` still stores the payload and
emits `Ended` while returning that error. -/
theorem C10_game_end_stores_on_error_witness :
    handleEvent c10state (.gameEnd c2gameEnd) =
      .ok { c10state with GameEnd := some c2gameEnd } [Emission.ended c2gameEnd]
        (some (PErr.missingUpdate (-123) (-123) FrameUpdateType.Post 0)) := by
  have h := C10_game_end_stores_on_error c10state c2gameEnd c10state []
    (PErr.missingUpdate (-123) (-123) FrameUpdateType.Post 0)
    (by decide) (by decide) (by rfl)
  exact h

/-- The strict per-player check only produces missing-update errors, never the
rollback-window error. -/
theorem strictCheck_not_rbv (total : Nat) (players : List PlayerInfo)
    (frame : FrameEntry) (a b : Int) :
    isRollbackWindowErr (finalizeStrictCheck total players frame a b) = false := by
  induction players with
  | nil => rfl
  | cons player rest ih =>
    simp only [finalizeStrictCheck]
    cases lookupA frame.Players player.Index with
    | none =>
      by_cases h : total > 2
      · simpa [h] using ih
      · simp [h, isRollbackWindowErr]
    | some pfi =>
      by_cases h : pfi.Pre = none ∨ pfi.Post = none
      · simp [h, isRollbackWindowErr]
      · simpa [h] using ih

/-- `withPre` does not change the error component of a handler result. -/
theorem withPre_errOf (t0 : List Emission) (r : HRes) : (r.withPre t0).errOf = r.errOf := by
  cases r <;> rfl

/-- `withPre` does not change the state component of a handler result. -/
theorem withPre_state (t0 : List Emission) (r : HRes) : (r.withPre t0).state = r.state := by
  cases r <;> rfl

/-- `withPre` prepends to the trace component of a handler result. -/
theorem withPre_trace (t0 : List Emission) (r : HRes) : (r.withPre t0).trace = t0 ++ r.trace := by
  cases r <;> rfl

/-- The strict gate's error, when present, is never the rollback-window
error. -/
theorem strictGate_not_rbv (p : ParserState) (frame : FrameEntry) (a b : Int) (e : PErr)
    (h : strictGate p frame a b = some (some e)) : isRollbackWindowErr (some e) = false := by
  unfold strictGate at h
  by_cases hs : p.Options.Strict = true
  · rw [if_pos hs] at h
    cases hg : p.gameInfo with
    | none => rw [hg] at h; exact absurd h (by simp)
    | some gi =>
      rw [hg] at h
      have := strictCheck_not_rbv gi.Players.length gi.Players frame a b
      simp only [Option.some.injEq] at h
      rw [h] at this
      exact this
  · rw [if_neg hs] at h
    exact absurd h (by simp)

/-- The finalization loop never produces the rollback-window error. -/
theorem finLoop_not_rbv (fuel : Nat) (p : ParserState) (target : Int) :
    isRollbackWindowErr (finalizeLoop fuel p target).errOf = false := by
  induction fuel generalizing p with
  | zero => rfl
  | succ fuel ih =>
    simp only [finalizeLoop]
    by_cases hlt : p.lastFinalizedFrame < target
    · simp only [if_pos hlt]
      cases hf : lookupA p.Frames (p.lastFinalizedFrame + 1) with
      | none => rfl
      | some frame =>
        cases hq : strictGate p frame (p.lastFinalizedFrame + 1) target with
        | none => simp [hq, isRollbackWindowErr, HRes.errOf]
        | some inner =>
          cases inner with
          | some e =>
            simp only [hq, HRes.errOf]
            exact strictGate_not_rbv p frame (p.lastFinalizedFrame + 1) target e hq
          | none =>
            simp only [hq]
            cases hr : finalizeLoop fuel
                { p with lastFinalizedFrame := p.lastFinalizedFrame + 1 } target with
            | ok s t e =>
              have := ih { p with lastFinalizedFrame := p.lastFinalizedFrame + 1 }
              rw [hr] at this
              simpa [HRes.errOf] using this
            | panic s t => simp [isRollbackWindowErr, HRes.errOf]
    · simp [if_neg hlt, isRollbackWindowErr, HRes.errOf]

/-- `finalizeFrames` never produces the rollback-window error. -/
theorem finalizeFrames_not_rbv (p : ParserState) (target : Int) :
    isRollbackWindowErr (finalizeFrames p target).errOf = false :=
  finLoop_not_rbv _ p target

/-- The frame entry `handleFrameBookend` stores: the current entry for the
frame, marked transfer-complete. -/
def bkEntry (p : ParserState) (n : Int) : FrameEntry :=
  { getFrame p n with IsTransferComplete := true }

/-- The parser state after `handleFrameBookend` stores the marked entry. -/
def bkState (p : ParserState) (n : Int) : ParserState :=
  { p with Frames := insertA p.Frames n (bkEntry p n) }

/-- Claim C8 (status: confirmed). Handling a `FrameBookend` while the major
scene is 0x8 and the payload's `latestFinalizedFrame` is ≥ -123 returns the
rollback-window error exactly when strict mode is on and
`latestFinalizedFrame < frameNumber - 7`; otherwise it hands off to
`finalizeFrames` with target `latestFinalizedFrame` (whose own errors are
missing-update errors, never the rollback-window one), and with strict mode
off the rollback-window error can never be returned. -/
theorem C8_rollback_window (p : ParserState) (gi : GameInfo) (payload : FrameBookendPayload)
    (h1 : p.gameInfo = some gi) (h2 : gi.MajorScene = 0x8)
    (h3 : payload.LatestFinalizedFrame ≥ -123) :
    (isRollbackWindowErr (handleEvent p (.frameBookend payload)).errOf = true ↔
      (p.Options.Strict = true ∧ payload.LatestFinalizedFrame < payload.FrameNumber - 7)) ∧
    (¬(p.Options.Strict = true ∧ payload.LatestFinalizedFrame < payload.FrameNumber - 7) →
      ∃ p1 fe, handleEvent p (.frameBookend payload) =
        (finalizeFrames p1 payload.LatestFinalizedFrame).withPre [Emission.frame fe] ∧
        p1.lastFinalizedFrame = p.lastFinalizedFrame ∧ p1.Options = p.Options ∧
        p1.gameInfo = p.gameInfo) ∧
    (p.Options.Strict = false →
      isRollbackWindowErr (handleEvent p (.frameBookend payload)).errOf = false) := by
  by_cases hcond : p.Options.Strict = true ∧
      payload.LatestFinalizedFrame < payload.FrameNumber - 7
  · have hred : handleEvent p (.frameBookend payload) =
        HRes.ok (bkState p payload.FrameNumber)
          [Emission.frame (bkEntry p payload.FrameNumber)]
          (some (PErr.rollbackWindowViolation payload.FrameNumber)) := by
      simp only [handleEvent, handleFrameBookend, h1, bkState, bkEntry, MaxRollbackFrames]
      rw [if_pos (And.intro h2 h3), if_pos hcond]
    refine ⟨?_, ?_, ?_⟩
    · rw [hred]
      exact ⟨fun _ => hcond, fun _ => rfl⟩
    · intro hc
      exact absurd hcond hc
    · intro hfalse
      rw [hfalse] at hcond
      exact absurd hcond.1 (by simp)
  · have hred : handleEvent p (.frameBookend payload) =
        (finalizeFrames (bkState p payload.FrameNumber)
          payload.LatestFinalizedFrame).withPre
          [Emission.frame (bkEntry p payload.FrameNumber)] := by
      simp only [handleEvent, handleFrameBookend, h1, bkState, bkEntry, MaxRollbackFrames]
      rw [if_pos (And.intro h2 h3), if_neg hcond]
    refine ⟨?_, ?_, ?_⟩
    · rw [hred, withPre_errOf, finalizeFrames_not_rbv]
      exact ⟨fun h => absurd h (by simp), fun h => absurd h hcond⟩
    · intro _
      exact ⟨_, _, hred, rfl, rfl, rfl⟩
    · intro _
      rw [hred, withPre_errOf, finalizeFrames_not_rbv]

/-- Witness game info: in-game major scene 0x8. -/
def c8gi : GameInfo := { (default : GameInfo) with MajorScene := 0x8 }

/-- Witness strict state in the in-game scene. -/
def c8state : ParserState := { NewSlpParser { Strict := true } with gameInfo := some c8gi }

/-- Witness bookend: frame 100, latest finalized 50, a 50-frame gap. -/
def c8payload : FrameBookendPayload := { FrameNumber := 100, LatestFinalizedFrame := 50 }

/-- Claim C8, witness: the theorem instantiated on a strict in-game state and
a bookend whose finalized frame lags 50 frames behind. -/
theorem C8_rollback_window_witness :
    (isRollbackWindowErr (handleEvent c8state (.frameBookend c8payload)).errOf = true ↔
      (c8state.Options.Strict = true ∧
        c8payload.LatestFinalizedFrame < c8payload.FrameNumber - 7)) ∧
    (¬(c8state.Options.Strict = true ∧
        c8payload.LatestFinalizedFrame < c8payload.FrameNumber - 7) →
      ∃ p1 fe, handleEvent c8state (.frameBookend c8payload) =
        (finalizeFrames p1 c8payload.LatestFinalizedFrame).withPre [Emission.frame fe] ∧
        p1.lastFinalizedFrame = c8state.lastFinalizedFrame ∧ p1.Options = c8state.Options ∧
        p1.gameInfo = c8state.gameInfo) ∧
    (c8state.Options.Strict = false →
      isRollbackWindowErr (handleEvent c8state (.frameBookend c8payload)).errOf = false) :=
  C8_rollback_window c8state c8gi c8payload rfl rfl (by decide)

/-- The rollback step only changes the `Rollbacks` ledger of the state. -/
theorem rollbackStep_state (p1 : ParserState) (ut : FrameUpdateType) (fol : Bool)
    (n : Int) (pi : Nat) :
    ∃ r, (rollbackStep p1 ut fol n pi).1 = { p1 with Rollbacks := r } := by
  simp only [rollbackStep]
  split_ifs <;> exact ⟨_, rfl⟩

/-- The rollback step emits only `RollbackFrame` emissions. -/
theorem rollbackStep_trace (p1 : ParserState) (ut : FrameUpdateType) (fol : Bool)
    (n : Int) (pi : Nat) :
    ((rollbackStep p1 ut fol n pi).2.filter isFrameEmission = [] ∧
     (rollbackStep p1 ut fol n pi).2.filter isFinalizedEmission = []) ∧
    finNums (rollbackStep p1 ut fol n pi).2 = [] := by
  simp only [rollbackStep]
  split_ifs <;> exact ⟨⟨rfl, rfl⟩, rfl⟩

/-- A pre-frame update always installs (no type-assertion mismatch). -/
theorem installUpdate_pre (frame : FrameEntry) (pp : PreFrameUpdatePayload)
    (pi : Nat) (fol : Bool) :
    ∃ fe, installUpdate frame FrameUpdateType.Pre (.pre pp) pi fol = some fe := by
  unfold installUpdate
  cases fol <;> exact ⟨_, rfl⟩

/-- A post-frame update always installs (no type-assertion mismatch). -/
theorem installUpdate_post (frame : FrameEntry) (pp : PostFrameUpdatePayload)
    (pi : Nat) (fol : Bool) :
    ∃ fe, installUpdate frame FrameUpdateType.Post (.post pp) pi fol = some fe := by
  unfold installUpdate
  cases fol <;> exact ⟨_, rfl⟩

/-- Claim C5, amended (status: corrected). With game info present, a version
at or below 2.2.0 — including exactly 2.2.0 — makes `handleFrameUpdate`
behave synchronously: the result is a `finalizeFrames` run with target
`frameNumber - 1` on top of a trace containing exactly one `Frame` emission.
A version above 2.2.0 emits no `Frame` and no `FinalizedFrame` during the
frame update and returns no error. -/
theorem C5_version_boundary_amended (p : ParserState) (gi : GameInfo)
    (payload : PreFrameUpdatePayload) (h1 : p.gameInfo = some gi) :
    (Version.lte gi.Version { major := 2, minor := 2, patch := 0 } = true →
      ∃ p1 t1, handleEvent p (.preFrameUpdate payload) =
        (finalizeFrames p1 (payload.FrameUpdate.FrameNumber - 1)).withPre t1 ∧
        (t1.filter isFrameEmission).length = 1 ∧
        p1.lastFinalizedFrame = p.lastFinalizedFrame) ∧
    (Version.lte gi.Version { major := 2, minor := 2, patch := 0 } = false →
      ∃ s t, handleEvent p (.preFrameUpdate payload) = .ok s t none ∧
        t.filter isFrameEmission = [] ∧ t.filter isFinalizedEmission = [] ∧
        s.lastFinalizedFrame = p.lastFinalizedFrame) := by
  obtain ⟨r, hr⟩ := rollbackStep_state { p with latestFrameIndex := payload.FrameUpdate.FrameNumber }
    FrameUpdateType.Pre payload.FrameUpdate.IsFollower
    payload.FrameUpdate.FrameNumber payload.FrameUpdate.PlayerIndex
  obtain ⟨fe, hfe⟩ := installUpdate_pre (getFrame p payload.FrameUpdate.FrameNumber) payload
    payload.FrameUpdate.PlayerIndex payload.FrameUpdate.IsFollower
  have htr := rollbackStep_trace { p with latestFrameIndex := payload.FrameUpdate.FrameNumber }
    FrameUpdateType.Pre payload.FrameUpdate.IsFollower
    payload.FrameUpdate.FrameNumber payload.FrameUpdate.PlayerIndex
  rw [h1] at hr htr
  constructor
  · intro hv
    simp only [handleEvent, handleFrameUpdate, FrameUpdatePayload.GetFrameUpdate, hfe, h1, hr, hv,
      ite_true, eq_self_iff_true]
    refine ⟨_, _, rfl, ?_, rfl⟩
    rw [List.filter_append, htr.1.1]
    rfl
  · intro hv
    simp only [handleEvent, handleFrameUpdate, FrameUpdatePayload.GetFrameUpdate, hfe, h1, hr, hv,
      ite_false, Bool.false_eq_true, if_false]
    refine ⟨_, _, rfl, ?_, ?_, rfl⟩
    · exact htr.1.1
    · exact htr.1.2

/-- Witness game info at version exactly 2.2.0. -/
def c5gi : GameInfo :=
  { (default : GameInfo) with Version := { major := 2, minor := 2, patch := 0 } }

/-- Witness state with version-2.2.0 game info present. -/
def c5state : ParserState := { NewSlpParser { Strict := false } with gameInfo := some c5gi }

/-- Claim C5, witness: the amended boundary theorem instantiated at a state
whose game info has version exactly 2.2.0. -/
theorem C5_version_boundary_witness :
    (Version.lte c5gi.Version { major := 2, minor := 2, patch := 0 } = true →
      ∃ p1 t1, handleEvent c5state (.preFrameUpdate (exPre (-123) 0)) =
        (finalizeFrames p1 ((exPre (-123) 0).FrameUpdate.FrameNumber - 1)).withPre t1 ∧
        (t1.filter isFrameEmission).length = 1 ∧
        p1.lastFinalizedFrame = c5state.lastFinalizedFrame) ∧
    (Version.lte c5gi.Version { major := 2, minor := 2, patch := 0 } = false →
      ∃ s t, handleEvent c5state (.preFrameUpdate (exPre (-123) 0)) = .ok s t none ∧
        t.filter isFrameEmission = [] ∧ t.filter isFinalizedEmission = [] ∧
        s.lastFinalizedFrame = c5state.lastFinalizedFrame) :=
  C5_version_boundary_amended c5state c5gi (exPre (-123) 0) rfl

/-- When the `Started` emission has already happened, any continuation of the
trace satisfies the scan. -/
theorem startedBefore_true (t : List Emission) : startedBefore true t = true := by
  induction t with
  | nil => rfl
  | cons e rest ih =>
    simp only [startedBefore]
    by_cases h : isStartedEmission e = true
    · simpa [h] using ih
    · simp only [h, if_false]
      simpa [h] using ih

/-- Claim C6, amended (status: corrected). If the stream begins with a
`GameStart` whose version is at least 1.6.0, game info completes during that
first event and `Started` is the very first emission, so `Started` precedes
every `Frame` and every `FinalizedFrame` emission of the run. -/
theorem C6_started_first_amended (opts : SlpParserOpts) (payload : GameStartPayload)
    (rest : List SlpEvent)
    (hv : Version.gte payload.Version { major := 1, minor := 6, patch := 0 } = true) :
    startedPrecedes (runParser (NewSlpParser opts) (SlpEvent.gameStart payload :: rest)).trace := by
  have hstep : handleEvent (NewSlpParser opts) (.gameStart payload) =
      .ok ((handleGameStart (NewSlpParser opts) payload).1)
        ((handleGameStart (NewSlpParser opts) payload).2) none := by
    simp only [handleEvent]
  have hgs : (handleGameStart (NewSlpParser opts) payload).2 =
      [Emission.started (handleGameStart (NewSlpParser opts) payload).1.gameInfo] := by
    simp only [handleGameStart, hv, if_true, completeGameInfo, NewSlpParser]
    rfl
  show startedBefore false (runParser (NewSlpParser opts) (SlpEvent.gameStart payload :: rest)).trace = true
  rw [runParser, hstep]
  have : (RunRes.withPre (handleGameStart (NewSlpParser opts) payload).2
      (runParser (handleGameStart (NewSlpParser opts) payload).1 rest)).trace =
      (handleGameStart (NewSlpParser opts) payload).2 ++
      (runParser (handleGameStart (NewSlpParser opts) payload).1 rest).trace := by
    cases runParser (handleGameStart (NewSlpParser opts) payload).1 rest <;> rfl
  rw [this, hgs]
  simp only [List.cons_append, List.nil_append, startedBefore, isStartedEmission]
  exact startedBefore_true _

/-- Claim C6, witness: the amended theorem at a version-1.6.0 `GameStart`
followed by a frame update. -/
theorem C6_started_first_witness :
    startedPrecedes (runParser (NewSlpParser { Strict := false })
      (SlpEvent.gameStart (exGameStart { major := 1, minor := 6, patch := 0 }) ::
        [SlpEvent.preFrameUpdate (exPre (-123) 0)])).trace :=
  C6_started_first_amended { Strict := false } (exGameStart { major := 1, minor := 6, patch := 0 })
    [SlpEvent.preFrameUpdate (exPre (-123) 0)] (by decide)

/-- `finNums` distributes over concatenation. -/
theorem finNums_append (a b : List Emission) : finNums (a ++ b) = finNums a ++ finNums b := by
  simp [finNums]

/-- Characterization of the finalization loop: it raises `lastFinalizedFrame`
by some `k ≥ 0` and its `FinalizedFrame` emissions are exactly the frames
`lastFinalizedFrame + 1, …, lastFinalizedFrame + k`, in that order. -/
theorem finLoop_spec (fuel : Nat) (p : ParserState) (target : Int) :
    ∃ k : Nat, (finalizeLoop fuel p target).state.lastFinalizedFrame =
        p.lastFinalizedFrame + k ∧
      finNums (finalizeLoop fuel p target).trace =
        (List.range k).map (fun (i : Nat) => p.lastFinalizedFrame + 1 + (i : Int)) := by
  induction fuel generalizing p with
  | zero => exact ⟨0, by simp [finalizeLoop, HRes.state], by simp [finalizeLoop, HRes.trace, finNums]⟩
  | succ fuel ih =>
    by_cases hlt : p.lastFinalizedFrame < target
    · cases hf : lookupA p.Frames (p.lastFinalizedFrame + 1) with
      | none =>
        refine ⟨0, ?_, ?_⟩ <;> simp [finalizeLoop, hlt, hf, HRes.state, HRes.trace, finNums]
      | some frame =>
        cases hq : strictGate p frame (p.lastFinalizedFrame + 1) target with
        | none =>
          refine ⟨0, ?_, ?_⟩ <;>
            simp [finalizeLoop, hlt, hf, hq, HRes.state, HRes.trace, finNums]
        | some inner =>
          cases inner with
          | some e =>
            refine ⟨0, ?_, ?_⟩ <;>
              simp [finalizeLoop, hlt, hf, hq, HRes.state, HRes.trace, finNums]
          | none =>
            obtain ⟨k, hs, ht⟩ := ih { p with lastFinalizedFrame := p.lastFinalizedFrame + 1 }
            refine ⟨k + 1, ?_, ?_⟩
            · cases hrec : finalizeLoop fuel
                  { p with lastFinalizedFrame := p.lastFinalizedFrame + 1 } target with
              | ok s t e =>
                rw [hrec] at hs
                simp only [finalizeLoop, if_pos hlt, hf, hq, hrec, HRes.state] at hs ⊢
                omega
              | panic s t =>
                rw [hrec] at hs
                simp only [finalizeLoop, if_pos hlt, hf, hq, hrec, HRes.state] at hs ⊢
                omega
            · cases hrec : finalizeLoop fuel
                  { p with lastFinalizedFrame := p.lastFinalizedFrame + 1 } target with
              | ok s t e =>
                rw [hrec] at ht
                simp only [finalizeLoop, if_pos hlt, hf, hq, hrec, HRes.trace,
                  finNums, List.filterMap_cons] at ht ⊢
                rw [ht, List.range_succ_eq_map, List.map_cons, List.map_map]
                congr 1
                · push_cast
                  ring
                · apply List.map_congr_left
                  intro i _
                  simp only [Function.comp_apply]
                  push_cast
                  ring
              | panic s t =>
                rw [hrec] at ht
                simp only [finalizeLoop, if_pos hlt, hf, hq, hrec, HRes.trace,
                  finNums, List.filterMap_cons] at ht ⊢
                rw [ht, List.range_succ_eq_map, List.map_cons, List.map_map]
                congr 1
                · push_cast
                  ring
                · apply List.map_congr_left
                  intro i _
                  simp only [Function.comp_apply]
                  push_cast
                  ring
    · exact ⟨0, by simp [finalizeLoop, hlt, HRes.state],
        by simp [finalizeLoop, hlt, HRes.trace, finNums]⟩

/-- `completeGameInfo` leaves `lastFinalizedFrame` unchanged and emits no
`FinalizedFrame`. -/
theorem completeGameInfo_spec (p : ParserState) :
    (completeGameInfo p).1.lastFinalizedFrame = p.lastFinalizedFrame ∧
    finNums (completeGameInfo p).2 = [] := by
  simp only [completeGameInfo]
  split_ifs <;> exact ⟨rfl, rfl⟩

/-- `handleGameStart` leaves `lastFinalizedFrame` unchanged and emits no
`FinalizedFrame`. -/
theorem handleGameStart_spec (p : ParserState) (pl : GameStartPayload) :
    (handleGameStart p pl).1.lastFinalizedFrame = p.lastFinalizedFrame ∧
    finNums (handleGameStart p pl).2 = [] := by
  simp only [handleGameStart, completeGameInfo]
  split_ifs <;> exact ⟨rfl, rfl⟩

/-- `handleFrameUpdate` raises `lastFinalizedFrame` by some `k` and emits the
`FinalizedFrame`s for exactly the next `k` frames, in order. -/
theorem handleFrameUpdate_spec (p : ParserState) (ut : FrameUpdateType)
    (pl : FrameUpdatePayload) :
    ∃ k : Nat, (handleFrameUpdate p ut pl).state.lastFinalizedFrame =
        p.lastFinalizedFrame + k ∧
      finNums (handleFrameUpdate p ut pl).trace =
        (List.range k).map (fun (i : Nat) => p.lastFinalizedFrame + 1 + (i : Int)) := by
  obtain ⟨r, hr⟩ := rollbackStep_state { p with latestFrameIndex := pl.GetFrameUpdate.FrameNumber }
    ut pl.GetFrameUpdate.IsFollower pl.GetFrameUpdate.FrameNumber pl.GetFrameUpdate.PlayerIndex
  have htr := (rollbackStep_trace { p with latestFrameIndex := pl.GetFrameUpdate.FrameNumber }
    ut pl.GetFrameUpdate.IsFollower pl.GetFrameUpdate.FrameNumber pl.GetFrameUpdate.PlayerIndex).2
  cases hinst : installUpdate (getFrame p pl.GetFrameUpdate.FrameNumber) ut pl
      pl.GetFrameUpdate.PlayerIndex pl.GetFrameUpdate.IsFollower with
  | none =>
    refine ⟨0, ?_, ?_⟩
    · simp only [handleFrameUpdate, hinst, hr, HRes.state]
      simp
    · simp only [handleFrameUpdate, hinst, HRes.trace, htr]
      simp
  | some fe =>
    cases hgi : p.gameInfo with
    | none =>
      rw [hgi] at hr htr
      refine ⟨0, ?_, ?_⟩
      · simp only [handleFrameUpdate, hinst, hr, hgi, HRes.state]
        simp
      · simp only [handleFrameUpdate, hinst, hr, hgi, HRes.trace, htr]
        simp [htr]
    | some gi =>
      rw [hgi] at hr htr
      by_cases hv : Version.lte gi.Version { major := 2, minor := 2, patch := 0 } = true
      · simp only [handleFrameUpdate, hinst, hr, hgi, hv, ite_true, eq_self_iff_true,
          withPre_state, withPre_trace, finNums_append]
        rw [htr]
        simp only [List.nil_append]
        exact finLoop_spec _ _ _
      · simp only [handleFrameUpdate, hinst, hr, hgi, hv, Bool.false_eq_true, if_false,
          ite_false, HRes.state, HRes.trace]
        refine ⟨0, by simp, ?_⟩
        rw [htr]
        simp

/-- `finalizeFrames` raises `lastFinalizedFrame` by some `k` and emits exactly
the next `k` frame numbers as `FinalizedFrame`s, in order. -/
theorem finalizeFrames_spec (p : ParserState) (target : Int) :
    ∃ k : Nat, (finalizeFrames p target).state.lastFinalizedFrame =
        p.lastFinalizedFrame + k ∧
      finNums (finalizeFrames p target).trace =
        (List.range k).map (fun (i : Nat) => p.lastFinalizedFrame + 1 + (i : Int)) :=
  finLoop_spec _ p target

/-- A lone `Frame` emission contributes no finalized frame numbers. -/
theorem finNums_frame (fe : FrameEntry) : finNums [Emission.frame fe] = [] := rfl

/-- `handleEvent` raises `lastFinalizedFrame` by some `k` and emits exactly
the next `k` frame numbers as `FinalizedFrame`s, in order (on any outcome,
panic included). -/
theorem handleEvent_spec (p : ParserState) (e : SlpEvent) :
    ∃ k : Nat, (handleEvent p e).state.lastFinalizedFrame = p.lastFinalizedFrame + k ∧
      finNums (handleEvent p e).trace =
        (List.range k).map (fun (i : Nat) => p.lastFinalizedFrame + 1 + (i : Int)) := by
  cases e with
  | gameStart pl =>
    refine ⟨0, ?_, ?_⟩
    · simp only [handleEvent, HRes.state, (handleGameStart_spec p pl).1]
      simp
    · simp only [handleEvent, HRes.trace, (handleGameStart_spec p pl).2]
      simp
  | preFrameUpdate pl => exact handleFrameUpdate_spec p FrameUpdateType.Pre (.pre pl)
  | postFrameUpdate pl =>
    obtain ⟨k, hs, ht⟩ := handleFrameUpdate_spec p FrameUpdateType.Post (.post pl)
    cases hres : handleFrameUpdate p FrameUpdateType.Post (.post pl) with
    | panic s t =>
      rw [hres] at hs ht
      exact ⟨k, by simp only [handleEvent, handlePostFrameUpdate, hres]; exact hs,
        by simp only [handleEvent, handlePostFrameUpdate, hres]; exact ht⟩
    | ok s t err =>
      rw [hres] at hs ht
      simp only [HRes.state, HRes.trace] at hs ht
      cases err with
      | some e0 =>
        exact ⟨k, by simp only [handleEvent, handlePostFrameUpdate, hres, HRes.state]; exact hs,
          by simp only [handleEvent, handlePostFrameUpdate, hres, HRes.trace]; exact ht⟩
      | none =>
        by_cases hc : s.gameInfoComplete = true
        · exact ⟨k, by simp only [handleEvent, handlePostFrameUpdate, hres, hc, ite_true,
              HRes.state]; exact hs,
            by simp only [handleEvent, handlePostFrameUpdate, hres, hc, ite_true,
              HRes.trace]; exact ht⟩
        · by_cases hfn : pl.FrameUpdate.FrameNumber ≤ -123
          · cases hgi : s.gameInfo with
            | none =>
              exact ⟨k, by simp only [handleEvent, handlePostFrameUpdate, hres, hc, hfn, hgi,
                  Bool.false_eq_true, if_false, ite_true, HRes.state]; exact hs,
                by simp only [handleEvent, handlePostFrameUpdate, hres, hc, hfn, hgi,
                  Bool.false_eq_true, if_false, ite_true, HRes.trace]; exact ht⟩
            | some gi =>
              exact ⟨k, by simp only [handleEvent, handlePostFrameUpdate, hres, hc, hfn, hgi,
                  Bool.false_eq_true, if_false, ite_true, HRes.state]; exact hs,
                by simp only [handleEvent, handlePostFrameUpdate, hres, hc, hfn, hgi,
                  Bool.false_eq_true, if_false, ite_true, HRes.trace]; exact ht⟩
          · refine ⟨k, ?_, ?_⟩
            · simp only [handleEvent, handlePostFrameUpdate, hres, hc, hfn, Bool.false_eq_true,
                if_false, HRes.state, (completeGameInfo_spec s).1]
              exact hs
            · simp only [handleEvent, handlePostFrameUpdate, hres, hc, hfn, Bool.false_eq_true,
                if_false, HRes.trace, finNums_append, (completeGameInfo_spec s).2,
                List.append_nil]
              exact ht
  | gameEnd pl =>
    by_cases hc : p.latestFrameIndex > -124 ∧ p.latestFrameIndex ≠ p.lastFinalizedFrame
    · obtain ⟨k, hs, ht⟩ := finalizeFrames_spec p p.latestFrameIndex
      cases hfin : finalizeFrames p p.latestFrameIndex with
      | ok s t e0 =>
        rw [hfin] at hs ht
        simp only [HRes.state, HRes.trace] at hs ht
        refine ⟨k, ?_, ?_⟩
        · simp only [handleEvent, handleGameEnd, if_pos hc, hfin, HRes.state]
          exact hs
        · simp only [handleEvent, handleGameEnd, if_pos hc, hfin, HRes.trace, finNums_append]
          rw [ht]
          simp [finNums]
      | panic s t =>
        rw [hfin] at hs ht
        simp only [HRes.state, HRes.trace] at hs ht
        exact ⟨k, by simp only [handleEvent, handleGameEnd, if_pos hc, hfin, HRes.state]; exact hs,
          by simp only [handleEvent, handleGameEnd, if_pos hc, hfin, HRes.trace]; exact ht⟩
    · refine ⟨0, ?_, ?_⟩
      · simp only [handleEvent, handleGameEnd, if_neg hc, HRes.state]
        simp
      · simp only [handleEvent, handleGameEnd, if_neg hc, HRes.trace]
        rfl
  | itemUpdate pl =>
    refine ⟨0, ?_, ?_⟩
    · simp only [handleEvent, handleItemUpdate, HRes.state]
      simp
    · rfl
  | frameBookend pl =>
    cases hgi : p.gameInfo with
    | none =>
      refine ⟨0, ?_, ?_⟩
      · simp only [handleEvent, handleFrameBookend, hgi, HRes.state]
        simp
      · simp only [handleEvent, handleFrameBookend, hgi, HRes.trace]
        rfl
    | some gi =>
      by_cases h1 : gi.MajorScene = 0x8 ∧ pl.LatestFinalizedFrame ≥ -123
      · by_cases h2 : p.Options.Strict = true ∧
            pl.LatestFinalizedFrame < pl.FrameNumber - MaxRollbackFrames
        · refine ⟨0, ?_, ?_⟩
          · simp only [handleEvent, handleFrameBookend, hgi]
            rw [if_pos h1, if_pos h2]
            simp [HRes.state]
          · simp only [handleEvent, handleFrameBookend, hgi]
            rw [if_pos h1, if_pos h2]
            rfl
        · simp only [handleEvent, handleFrameBookend, hgi]
          rw [if_pos h1, if_neg h2]
          simp only [withPre_state, withPre_trace, finNums_append, finNums_frame,
            List.nil_append]
          exact finalizeFrames_spec _ _
      · simp only [handleEvent, handleFrameBookend, hgi]
        rw [if_neg h1]
        simp only [withPre_state, withPre_trace, finNums_append, finNums_frame,
          List.nil_append]
        exact finalizeFrames_spec _ _
  | frameStart pl => exact ⟨0, by simp [handleEvent, HRes.state], rfl⟩
  | geckoList pl => exact ⟨0, by simp [handleEvent, HRes.state], rfl⟩
  | messageSplitter pl => exact ⟨0, by simp [handleEvent, HRes.state], rfl⟩
  | eventPayloads pl => exact ⟨0, by simp [handleEvent, HRes.state], rfl⟩

/-- A full parser run raises `lastFinalizedFrame` by some `k` and emits
exactly the next `k` frame numbers as `FinalizedFrame`s, in order, across all
handled events. -/
theorem runParser_spec (events : List SlpEvent) (p : ParserState) :
    ∃ k : Nat, (runParser p events).state.lastFinalizedFrame = p.lastFinalizedFrame + k ∧
      finNums (runParser p events).trace =
        (List.range k).map (fun (i : Nat) => p.lastFinalizedFrame + 1 + (i : Int)) := by
  induction events generalizing p with
  | nil =>
    exact ⟨0, by simp [runParser, RunRes.state], by simp [runParser, RunRes.trace, finNums]⟩
  | cons e rest ih =>
    obtain ⟨k1, hs1, ht1⟩ := handleEvent_spec p e
    cases hres : handleEvent p e with
    | panic s t =>
      rw [hres] at hs1 ht1
      simp only [HRes.state, HRes.trace] at hs1 ht1
      exact ⟨k1, by simp only [runParser, hres, RunRes.state]; exact hs1,
        by simp only [runParser, hres, RunRes.trace]; exact ht1⟩
    | ok s t err =>
      rw [hres] at hs1 ht1
      simp only [HRes.state, HRes.trace] at hs1 ht1
      cases err with
      | some e0 =>
        exact ⟨k1, by simp only [runParser, hres, RunRes.state]; exact hs1,
          by simp only [runParser, hres, RunRes.trace]; exact ht1⟩
      | none =>
        obtain ⟨k2, hs2, ht2⟩ := ih s
        have hws : (RunRes.withPre t (runParser s rest)).state = (runParser s rest).state := by
          cases runParser s rest <;> rfl
        have hwt : (RunRes.withPre t (runParser s rest)).trace =
            t ++ (runParser s rest).trace := by
          cases runParser s rest <;> rfl
        refine ⟨k1 + k2, ?_, ?_⟩
        · simp only [runParser, hres, hws]
          rw [hs2, hs1]
          push_cast
          ring
        · simp only [runParser, hres, hwt]
          rw [finNums_append, ht1, ht2, List.range_add, List.map_append, List.map_map]
          congr 1
          apply List.map_congr_left
          intro i _
          simp only [Function.comp_apply]
          rw [hs1]
          push_cast
          ring

/-- Claim C7 (status: confirmed). Over any event sequence on one parser
instance (no `Reset`): `lastFinalizedFrame` never decreases across a handled
event; the `FinalizedFrame` emissions of a whole run from a fresh parser are
exactly the frame numbers `-123, -122, …` in order — hence each frame number
is finalized at most once and the sequence is strictly increasing; and when
the frame after `lastFinalizedFrame` is absent from the frame map,
`finalizeFrames` stops with no error, no emission and no state change. -/
theorem C7_finalization_invariants :
    (∀ (p : ParserState) (e : SlpEvent),
      p.lastFinalizedFrame ≤ (handleEvent p e).state.lastFinalizedFrame) ∧
    (∀ (opts : SlpParserOpts) (events : List SlpEvent),
      ∃ k : Nat, finNums (runParser (NewSlpParser opts) events).trace =
        (List.range k).map (fun (i : Nat) => -123 + (i : Int))) ∧
    (∀ (opts : SlpParserOpts) (events : List SlpEvent),
      List.Pairwise (· < ·) (finNums (runParser (NewSlpParser opts) events).trace)) ∧
    (∀ (p : ParserState) (target : Int),
      lookupA p.Frames (p.lastFinalizedFrame + 1) = none →
      finalizeFrames p target = .ok p [] none) := by
  refine ⟨?_, ?_, ?_, ?_⟩
  · intro p e
    obtain ⟨k, hs, _⟩ := handleEvent_spec p e
    rw [hs]
    omega
  · intro opts events
    obtain ⟨k, _, ht⟩ := runParser_spec events (NewSlpParser opts)
    refine ⟨k, ?_⟩
    rw [ht]
    apply List.map_congr_left
    intro i _
    simp only [NewSlpParser]
    omega
  · intro opts events
    obtain ⟨k, _, ht⟩ := runParser_spec events (NewSlpParser opts)
    rw [ht]
    refine List.Pairwise.map _ ?_ (List.pairwise_lt_range k)
    intro a b hab
    omega
  · intro p target hnone
    unfold finalizeFrames
    cases hn : (target - p.lastFinalizedFrame).toNat with
    | zero => rfl
    | succ n =>
      simp only [finalizeLoop, hnone]
      split_ifs <;> rfl

/-- Claim C7, witness: the gap clause applied to a fresh strict parser (empty
frame map), with the other clauses available at any instantiation. -/
theorem C7_finalization_invariants_witness :
    finalizeFrames (NewSlpParser { Strict := true }) 5 =
      .ok (NewSlpParser { Strict := true }) [] none :=
  C7_finalization_invariants.2.2.2 (NewSlpParser { Strict := true }) 5 rfl

/-- True on the panic outcome of a handler. -/
def HRes.isPanic : HRes → Bool
| .panic _ _ => true
| .ok _ _ _ => false

/-- True on a `GameStart` event. -/
def isGameStart : SlpEvent → Bool
| .gameStart _ => true
| _ => false

/-- `withPre` preserves panic-ness of a handler result. -/
theorem withPre_isPanic (t0 : List Emission) (r : HRes) :
    (r.withPre t0).isPanic = r.isPanic := by
  cases r <;> rfl

/-- `RunRes.withPre` preserves panic-ness of a run outcome. -/
theorem runWithPre_isPanicked (t0 : List Emission) (r : RunRes) :
    (r.withPre t0).isPanicked = r.isPanicked := by
  cases r <;> rfl

/-- With game info present (or strict mode off) the strict gate never signals
the nil-dereference. -/
theorem strictGate_ne_none (p : ParserState) (frame : FrameEntry) (a b : Int)
    (h : p.gameInfo.isSome = true) : strictGate p frame a b ≠ none := by
  unfold strictGate
  cases hg : p.gameInfo with
  | none => rw [hg] at h; exact absurd h (by simp)
  | some gi => split_ifs <;> simp

/-- With game info present the finalization loop never panics and leaves the
game info unchanged. -/
theorem finLoop_no_panic (fuel : Nat) (p : ParserState) (target : Int)
    (h : p.gameInfo.isSome = true) :
    (finalizeLoop fuel p target).isPanic = false ∧
    (finalizeLoop fuel p target).state.gameInfo = p.gameInfo := by
  induction fuel generalizing p with
  | zero => exact ⟨rfl, rfl⟩
  | succ fuel ih =>
    by_cases hlt : p.lastFinalizedFrame < target
    · cases hf : lookupA p.Frames (p.lastFinalizedFrame + 1) with
      | none => simp [finalizeLoop, hlt, hf, HRes.isPanic, HRes.state]
      | some frame =>
        cases hq : strictGate p frame (p.lastFinalizedFrame + 1) target with
        | none => exact absurd hq (strictGate_ne_none p frame _ target h)
        | some inner =>
          cases inner with
          | some e => simp [finalizeLoop, hlt, hf, hq, HRes.isPanic, HRes.state]
          | none =>
            have hrec := ih { p with lastFinalizedFrame := p.lastFinalizedFrame + 1 } (by simpa using h)
            cases hr : finalizeLoop fuel
                { p with lastFinalizedFrame := p.lastFinalizedFrame + 1 } target with
            | ok s t e =>
              rw [hr] at hrec
              simp only [HRes.isPanic, HRes.state] at hrec
              simp [finalizeLoop, hlt, hf, hq, hr, HRes.isPanic, HRes.state, hrec.2]
            | panic s t =>
              rw [hr] at hrec
              exact absurd hrec.1 (by simp [HRes.isPanic])
    · simp [finalizeLoop, hlt, HRes.isPanic, HRes.state]

/-- With game info present `finalizeFrames` never panics and leaves the game
info unchanged. -/
theorem finalizeFrames_no_panic (p : ParserState) (target : Int)
    (h : p.gameInfo.isSome = true) :
    (finalizeFrames p target).isPanic = false ∧
    (finalizeFrames p target).state.gameInfo = p.gameInfo :=
  finLoop_no_panic _ p target h

/-- With game info present, a frame update whose payload matches its update
type (as at both `handleEvent` call sites) never panics, and game info stays
present and unchanged. -/
theorem handleFrameUpdate_no_panic (p : ParserState) (ut : FrameUpdateType)
    (pl : FrameUpdatePayload) (gi : GameInfo) (hg : p.gameInfo = some gi)
    (hmatch : ∃ fe, installUpdate (getFrame p pl.GetFrameUpdate.FrameNumber) ut pl
      pl.GetFrameUpdate.PlayerIndex pl.GetFrameUpdate.IsFollower = some fe) :
    (handleFrameUpdate p ut pl).isPanic = false ∧
    (handleFrameUpdate p ut pl).state.gameInfo = some gi := by
  obtain ⟨fe, hinst⟩ := hmatch
  obtain ⟨r, hr⟩ := rollbackStep_state { p with latestFrameIndex := pl.GetFrameUpdate.FrameNumber }
    ut pl.GetFrameUpdate.IsFollower pl.GetFrameUpdate.FrameNumber pl.GetFrameUpdate.PlayerIndex
  rw [hg] at hr
  by_cases hv : Version.lte gi.Version { major := 2, minor := 2, patch := 0 } = true
  · simp only [handleFrameUpdate, hinst, hr, hg, hv, ite_true, eq_self_iff_true,
      withPre_isPanic, withPre_state]
    constructor
    · exact (finalizeFrames_no_panic _ _ (by rfl)).1
    · rw [(finalizeFrames_no_panic _ _ (by rfl)).2]
  · simp [handleFrameUpdate, hinst, hr, hg, hv, HRes.isPanic, HRes.state]

/-- `handleGameStart` always installs game info. -/
theorem handleGameStart_gameInfo (p : ParserState) (pl : GameStartPayload) :
    ∃ g, (handleGameStart p pl).1.gameInfo = some g := by
  simp only [handleGameStart, completeGameInfo]
  split_ifs <;> exact ⟨_, rfl⟩

/-- `completeGameInfo` does not change the game info pointer. -/
theorem completeGameInfo_gameInfo (p : ParserState) :
    (completeGameInfo p).1.gameInfo = p.gameInfo := by
  simp only [completeGameInfo]
  split_ifs <;> rfl

/-- With game info present, no event handler panics, and game info remains
present afterwards. -/
theorem handleEvent_no_panic (p : ParserState) (e : SlpEvent) (gi : GameInfo)
    (hg : p.gameInfo = some gi) :
    (handleEvent p e).isPanic = false ∧
    ∃ gi', (handleEvent p e).state.gameInfo = some gi' := by
  cases e with
  | gameStart pl =>
    obtain ⟨g, hgi⟩ := handleGameStart_gameInfo p pl
    exact ⟨rfl, g, by simp only [handleEvent, HRes.state]; exact hgi⟩
  | preFrameUpdate pl =>
    have h := handleFrameUpdate_no_panic p FrameUpdateType.Pre (.pre pl) gi hg
      (installUpdate_pre _ pl _ _)
    exact ⟨h.1, gi, h.2⟩
  | postFrameUpdate pl =>
    have h := handleFrameUpdate_no_panic p FrameUpdateType.Post (.post pl) gi hg
      (installUpdate_post _ pl _ _)
    cases hres : handleFrameUpdate p FrameUpdateType.Post (.post pl) with
    | panic s t =>
      rw [hres] at h
      exact absurd h.1 (by simp [HRes.isPanic])
    | ok s t err =>
      rw [hres] at h
      simp only [HRes.state] at h
      cases err with
      | some e0 =>
        exact ⟨by simp only [handleEvent, handlePostFrameUpdate, hres, HRes.isPanic], gi,
          by simp only [handleEvent, handlePostFrameUpdate, hres, HRes.state]; exact h.2⟩
      | none =>
        by_cases hc : s.gameInfoComplete = true
        · exact ⟨by simp only [handleEvent, handlePostFrameUpdate, hres, hc, ite_true,
              HRes.isPanic], gi,
            by simp only [handleEvent, handlePostFrameUpdate, hres, hc, ite_true,
              HRes.state]; exact h.2⟩
        · by_cases hfn : pl.FrameUpdate.FrameNumber ≤ -123
          · refine ⟨?_, ?_⟩
            · simp only [handleEvent, handlePostFrameUpdate, hres, hc, Bool.false_eq_true,
                if_false, hfn, ite_true, h.2, HRes.isPanic]
            · simp only [handleEvent, handlePostFrameUpdate, hres, hc, Bool.false_eq_true,
                if_false, hfn, ite_true, h.2, HRes.state]
              exact ⟨_, rfl⟩
          · refine ⟨?_, gi, ?_⟩
            · simp only [handleEvent, handlePostFrameUpdate, hres, hc, Bool.false_eq_true,
                if_false, hfn, HRes.isPanic]
            · simp only [handleEvent, handlePostFrameUpdate, hres, hc, Bool.false_eq_true,
                if_false, hfn, HRes.state, completeGameInfo_gameInfo]
              exact h.2
  | gameEnd pl =>
    by_cases hc : p.latestFrameIndex > -124 ∧ p.latestFrameIndex ≠ p.lastFinalizedFrame
    · have h := finalizeFrames_no_panic p p.latestFrameIndex (by rw [hg]; rfl)
      cases hfin : finalizeFrames p p.latestFrameIndex with
      | ok s t e0 =>
        rw [hfin] at h
        simp only [HRes.state] at h
        refine ⟨by simp only [handleEvent, handleGameEnd, if_pos hc, hfin, HRes.isPanic], gi, ?_⟩
        simp only [handleEvent, handleGameEnd, if_pos hc, hfin, HRes.state]
        rw [← hg]
        exact h.2
      | panic s t =>
        rw [hfin] at h
        exact absurd h.1 (by simp [HRes.isPanic])
    · exact ⟨by simp only [handleEvent, handleGameEnd, if_neg hc, HRes.isPanic], gi,
        by simp only [handleEvent, handleGameEnd, if_neg hc, HRes.state]; exact hg⟩
  | itemUpdate pl =>
    exact ⟨rfl, gi, by simp only [handleEvent, handleItemUpdate, HRes.state]; exact hg⟩
  | frameBookend pl =>
    by_cases h1 : (p.gameInfo.isSome = true)
    · cases hgi : p.gameInfo with
      | none => rw [hgi] at hg; cases hg
      | some gi2 =>
        by_cases hcond : gi2.MajorScene = 0x8 ∧ pl.LatestFinalizedFrame ≥ -123
        · by_cases h2 : p.Options.Strict = true ∧
              pl.LatestFinalizedFrame < pl.FrameNumber - MaxRollbackFrames
          · refine ⟨?_, gi2, ?_⟩
            · simp only [handleEvent, handleFrameBookend, hgi]
              rw [if_pos hcond, if_pos h2]
              rfl
            · simp only [handleEvent, handleFrameBookend, hgi]
              rw [if_pos hcond, if_pos h2]
              rfl
          · have h := finalizeFrames_no_panic (bkState p pl.FrameNumber)
              pl.LatestFinalizedFrame (by simp [bkState, hgi])
            simp only [bkState, bkEntry, hgi] at h
            refine ⟨?_, gi2, ?_⟩
            · simp only [handleEvent, handleFrameBookend, hgi]
              rw [if_pos hcond, if_neg h2, withPre_isPanic]
              exact h.1
            · simp only [handleEvent, handleFrameBookend, hgi]
              rw [if_pos hcond, if_neg h2, withPre_state]
              exact h.2
        · have h := finalizeFrames_no_panic (bkState p pl.FrameNumber)
            (pl.FrameNumber - MaxRollbackFrames) (by simp [bkState, hgi])
          simp only [bkState, bkEntry, hgi] at h
          refine ⟨?_, gi2, ?_⟩
          · simp only [handleEvent, handleFrameBookend, hgi]
            rw [if_neg hcond, withPre_isPanic]
            exact h.1
          · simp only [handleEvent, handleFrameBookend, hgi]
            rw [if_neg hcond, withPre_state]
            exact h.2
    · rw [hg] at h1
      simp at h1
  | frameStart pl => exact ⟨rfl, gi, hg⟩
  | geckoList pl => exact ⟨rfl, gi, hg⟩
  | messageSplitter pl => exact ⟨rfl, gi, hg⟩
  | eventPayloads pl => exact ⟨rfl, gi, hg⟩

/-- With game info present, a parser run never panics. -/
theorem runParser_no_panic (events : List SlpEvent) (p : ParserState) (gi : GameInfo)
    (hg : p.gameInfo = some gi) : (runParser p events).isPanicked = false := by
  induction events generalizing p gi with
  | nil => rfl
  | cons e rest ih =>
    have h := handleEvent_no_panic p e gi hg
    cases hres : handleEvent p e with
    | panic s t =>
      rw [hres] at h
      exact absurd h.1 (by simp [HRes.isPanic])
    | ok s t err =>
      rw [hres] at h
      simp only [HRes.state] at h
      obtain ⟨gi', hgi'⟩ := h.2
      cases err with
      | some e0 => simp only [runParser, hres, RunRes.isPanicked]
      | none =>
        simp only [runParser, hres, runWithPre_isPanicked]
        exact ih _ _ hgi'

/-- An event that is neither frame-related nor a `GameStart`, handled while no
frame update has been seen, succeeds and preserves the pre-`GameStart`
invariant. -/
theorem handleEvent_prephase (p : ParserState) (e : SlpEvent)
    (hfr : isFrameRelated e = false) (hgs : isGameStart e = false)
    (hlat : p.latestFrameIndex = -124) :
    ∃ s t, handleEvent p e = .ok s t none ∧ s.gameInfo = p.gameInfo ∧
      s.latestFrameIndex = -124 := by
  cases e with
  | gameStart pl => simp [isGameStart] at hgs
  | preFrameUpdate pl => simp [isFrameRelated] at hfr
  | postFrameUpdate pl => simp [isFrameRelated] at hfr
  | itemUpdate pl => simp [isFrameRelated] at hfr
  | frameBookend pl => simp [isFrameRelated] at hfr
  | gameEnd pl =>
    have hc : ¬(p.latestFrameIndex > -124 ∧ p.latestFrameIndex ≠ p.lastFinalizedFrame) := by
      rw [hlat]
      intro hcc
      omega
    refine ⟨{ p with GameEnd := some pl }, [Emission.ended pl], ?_, rfl, hlat⟩
    simp only [handleEvent, handleGameEnd, if_neg hc]
  | frameStart pl => exact ⟨p, [], rfl, rfl, hlat⟩
  | geckoList pl => exact ⟨p, [], rfl, rfl, hlat⟩
  | messageSplitter pl => exact ⟨p, [], rfl, rfl, hlat⟩
  | eventPayloads pl => exact ⟨p, [], rfl, rfl, hlat⟩

/-- A run whose frame-related events are all preceded by a `GameStart` never
panics, starting from any state in the pre-`GameStart` invariant. -/
theorem runParser_prephase (events : List SlpEvent) (p : ParserState)
    (hfirst : gameStartFirst events = true)
    (hg : p.gameInfo = none) (hlat : p.latestFrameIndex = -124) :
    (runParser p events).isPanicked = false := by
  induction events generalizing p with
  | nil => rfl
  | cons e rest ih =>
    cases e with
    | gameStart pl =>
      obtain ⟨g, hgi1⟩ := handleGameStart_gameInfo p pl
      simp only [runParser, handleEvent, runWithPre_isPanicked]
      exact runParser_no_panic rest _ g hgi1
    | preFrameUpdate pl => simp [gameStartFirst, isFrameRelated] at hfirst
    | postFrameUpdate pl => simp [gameStartFirst, isFrameRelated] at hfirst
    | itemUpdate pl => simp [gameStartFirst, isFrameRelated] at hfirst
    | frameBookend pl => simp [gameStartFirst, isFrameRelated] at hfirst
    | gameEnd pl =>
      have hrest : gameStartFirst rest = true := by
        simpa [gameStartFirst, isFrameRelated] using hfirst
      obtain ⟨s, t, hres, hsg, hslat⟩ := handleEvent_prephase p (.gameEnd pl) rfl rfl hlat
      simp only [runParser, hres, runWithPre_isPanicked]
      exact ih s hrest (by rw [hsg]; exact hg) hslat
    | frameStart pl =>
      have hrest : gameStartFirst rest = true := by
        simpa [gameStartFirst, isFrameRelated] using hfirst
      obtain ⟨s, t, hres, hsg, hslat⟩ := handleEvent_prephase p (.frameStart pl) rfl rfl hlat
      simp only [runParser, hres, runWithPre_isPanicked]
      exact ih s hrest (by rw [hsg]; exact hg) hslat
    | geckoList pl =>
      have hrest : gameStartFirst rest = true := by
        simpa [gameStartFirst, isFrameRelated] using hfirst
      obtain ⟨s, t, hres, hsg, hslat⟩ := handleEvent_prephase p (.geckoList pl) rfl rfl hlat
      simp only [runParser, hres, runWithPre_isPanicked]
      exact ih s hrest (by rw [hsg]; exact hg) hslat
    | messageSplitter pl =>
      have hrest : gameStartFirst rest = true := by
        simpa [gameStartFirst, isFrameRelated] using hfirst
      obtain ⟨s, t, hres, hsg, hslat⟩ := handleEvent_prephase p (.messageSplitter pl) rfl rfl hlat
      simp only [runParser, hres, runWithPre_isPanicked]
      exact ih s hrest (by rw [hsg]; exact hg) hslat
    | eventPayloads pl =>
      have hrest : gameStartFirst rest = true := by
        simpa [gameStartFirst, isFrameRelated] using hfirst
      obtain ⟨s, t, hres, hsg, hslat⟩ := handleEvent_prephase p (.eventPayloads pl) rfl rfl hlat
      simp only [runParser, hres, runWithPre_isPanicked]
      exact ih s hrest (by rw [hsg]; exact hg) hslat

/-- A frame update handled with no game info present returns without error or
panic (the version branch is skipped) and leaves game info absent and the
completion flag unchanged. -/
theorem handleFrameUpdate_noGameInfo (p : ParserState) (ut : FrameUpdateType)
    (pl : FrameUpdatePayload) (hg : p.gameInfo = none)
    (hmatch : ∃ fe, installUpdate (getFrame p pl.GetFrameUpdate.FrameNumber) ut pl
      pl.GetFrameUpdate.PlayerIndex pl.GetFrameUpdate.IsFollower = some fe) :
    ∃ s t, handleFrameUpdate p ut pl = .ok s t none ∧ s.gameInfo = none ∧
      s.gameInfoComplete = p.gameInfoComplete := by
  obtain ⟨fe, hinst⟩ := hmatch
  obtain ⟨r, hr⟩ := rollbackStep_state { p with latestFrameIndex := pl.GetFrameUpdate.FrameNumber }
    ut pl.GetFrameUpdate.IsFollower pl.GetFrameUpdate.FrameNumber pl.GetFrameUpdate.PlayerIndex
  rw [hg] at hr
  simp only [handleFrameUpdate, hinst, hr, hg]
  exact ⟨_, _, rfl, rfl, rfl⟩

/-- Claim C9 (status: confirmed). A `FrameBookend`, or a `PostFrameUpdate`
with frame number ≤ -123, handled on a fresh parser (no `GameStart` yet)
dereferences the nil `gameInfo` pointer — a panic; and the handlers are total
under the precondition that a `GameStart` precedes every frame-related event:
any such run never panics. -/
theorem C9_gamestart_precondition :
    (∀ (opts : SlpParserOpts) (payload : FrameBookendPayload),
      ∃ s t, handleEvent (NewSlpParser opts) (.frameBookend payload) = .panic s t) ∧
    (∀ (opts : SlpParserOpts) (payload : PostFrameUpdatePayload),
      payload.FrameUpdate.FrameNumber ≤ -123 →
      ∃ s t, handleEvent (NewSlpParser opts) (.postFrameUpdate payload) = .panic s t) ∧
    (∀ (opts : SlpParserOpts) (events : List SlpEvent),
      gameStartFirst events = true →
      (runParser (NewSlpParser opts) events).isPanicked = false) := by
  refine ⟨?_, ?_, ?_⟩
  · intro opts payload
    exact ⟨_, _, rfl⟩
  · intro opts payload hfn
    obtain ⟨s, t, hok, hsg, hsc⟩ := handleFrameUpdate_noGameInfo (NewSlpParser opts)
      FrameUpdateType.Post (.post payload) rfl (installUpdate_post _ payload _ _)
    have hsc' : s.gameInfoComplete = false := by rw [hsc]; rfl
    refine ⟨s, t, ?_⟩
    simp only [handleEvent, handlePostFrameUpdate, hok, hsc', Bool.false_eq_true, if_false]
    rw [if_pos hfn]
    simp only [hsg]
  · intro opts events hfirst
    exact runParser_prephase events (NewSlpParser opts) hfirst rfl rfl

/-- Claim C9, witness: a bookend and an early post-frame update panic on a
fresh parser, and the scenario-2 stream (which starts with `GameStart`) runs
without panic. -/
theorem C9_gamestart_precondition_witness :
    (∃ s t, handleEvent (NewSlpParser { Strict := false })
      (.frameBookend { FrameNumber := -123, LatestFinalizedFrame := -123 }) = .panic s t) ∧
    (∃ s t, handleEvent (NewSlpParser { Strict := false })
      (.postFrameUpdate (exPost (-123) 0 0)) = .panic s t) ∧
    (runParser (NewSlpParser { Strict := false }) c4events).isPanicked = false :=
  ⟨C9_gamestart_precondition.1 { Strict := false }
      { FrameNumber := -123, LatestFinalizedFrame := -123 },
   C9_gamestart_precondition.2.1 { Strict := false } (exPost (-123) 0 0) (by decide),
   C9_gamestart_precondition.2.2 { Strict := false } c4events (by decide)⟩
